import Mathlib

/-!
# xEngine frame graph: the composite pass and the driver loaders

A shallow embedding of `CompositePass::setup`, `CompositePass::execute`
(engine/src/render/graph/passes/compositepass.cpp) and `PhysicsDriver::load`
(engine/include/xng/physics/physicsdriver.hpp), together with the parts of the
frame graph they talk to (builder, pass resources, command buffers, queues,
resolver).  The collaborators whose sources are not part of the excerpt are
modelled from the specification and say so in their doc comments.

C++ exceptions are modelled by an optional error next to the state reached at
the moment of the throw: members assigned and calls made before the throw stay
visible, exactly as in the source.
-/

namespace xng

/-! ## Basic data -/

/-- Integer vector, `Vec2i` of the source. -/
structure Vec2i where
  x : Int
  y : Int
deriving DecidableEq, Repr

/-- Product of a size and the render-scale setting.  The setting is a `float` in
the source; it is idealised as a rational and the conversion back to `int`
truncates toward zero, as the C++ conversion does. -/
def Vec2i.scale (v : Vec2i) (s : ℚ) : Vec2i :=
  ⟨Int.tdiv (v.x * s.num) s.den, Int.tdiv (v.y * s.num) s.den⟩

/-- Modelled from the spec: the resource handle of the frame graph
(`FrameGraphResource`, declared outside the excerpt): an opaque index carrying
an `assigned` flag that distinguishes "never created" from "created". -/
structure FrameGraphResource where
  index : Nat
  assigned : Bool
deriving DecidableEq, Repr

/-- A default-constructed handle: not assigned. -/
def FrameGraphResource.unassigned : FrameGraphResource := ⟨0, false⟩

/-- Modelled from the spec: the vertex layout of a mesh, given by the byte sizes
of its attributes; `getSize` is the size of one vertex. -/
structure VertexLayout where
  attributes : List Nat
deriving DecidableEq, Repr

/-- Size in bytes of one vertex. -/
def VertexLayout.getSize (l : VertexLayout) : Nat := l.attributes.sum

/-- One vertex, as the bytes it contributes to a vertex stream. -/
structure Vertex where
  buffer : List Nat
deriving DecidableEq, Repr

/-- The mesh member of the pass (`mesh.vertices`, `mesh.vertexLayout`). -/
structure Mesh where
  vertices : List Vertex
  vertexLayout : VertexLayout
deriving DecidableEq, Repr

/-- Shader stages used by the pass. -/
inductive ShaderStage
  | VERTEX
  | FRAGMENT
deriving DecidableEq, Repr

/-- Binding kinds of a pipeline; the pass only uses texture buffers. -/
inductive ShaderBinding
  | BIND_TEXTURE_BUFFER
deriving DecidableEq, Repr

/-- Primitive kinds; the pass draws triangles. -/
inductive Primitive
  | TRIANGLES
deriving DecidableEq, Repr

/-- Blend factors named by the pass. -/
inductive BlendMode
  | ZERO
  | ONE
  | SRC_ALPHA
  | ONE_MINUS_SRC_ALPHA
deriving DecidableEq, Repr

/-- Descriptor of a render target (the fields the pass sets). -/
structure RenderTargetDesc where
  size : Vec2i
  hasDepthStencilAttachment : Bool
  numberOfColorAttachments : Nat
deriving DecidableEq, Repr

/-- Descriptor of a vertex buffer. -/
structure VertexBufferDesc where
  size : Nat
deriving DecidableEq, Repr

/-- Descriptor of a vertex array object. -/
structure VertexArrayObjectDesc where
  vertexLayout : VertexLayout
deriving DecidableEq, Repr

/-- Descriptor of a render pipeline (the fields the pass sets). The two shaders
are generated at build time and are referred to by name. -/
structure RenderPipelineDesc where
  shaders : List (ShaderStage × String)
  bindings : List ShaderBinding
  primitive : Primitive
  vertexLayout : VertexLayout
  enableBlending : Bool
  enableDepthTest : Bool
  depthTestWrite : Bool
  colorBlendSourceMode : BlendMode
  colorBlendDestinationMode : BlendMode
  alphaBlendSourceMode : BlendMode
  alphaBlendDestinationMode : BlendMode
deriving DecidableEq, Repr

/-- Descriptor of a render pass. -/
structure RenderPassDesc where
  numberOfColorAttachments : Nat
  hasDepthStencilAttachment : Bool
deriving DecidableEq, Repr

/-- Modelled from the spec: the named inter-pass channels (section 6: a fixed
vocabulary, extendable; `other` stands for the extensions). -/
inductive FrameGraphSlot
  | SLOT_SCREEN_COLOR
  | SLOT_SCREEN_DEPTH
  | SLOT_DEFERRED_COLOR
  | SLOT_DEFERRED_DEPTH
  | SLOT_FORWARD_COLOR
  | SLOT_FORWARD_DEPTH
  | SLOT_BACKGROUND_COLOR
  | other (n : Nat)
deriving DecidableEq, Repr

/-- The error taxonomy of section 7 of the spec, plus the two failures the C++
of the pass can raise by itself (`vector::at` and `assert`). -/
inductive FrameGraphError
  | InvalidDescriptor
  | UnresolvedHandle
  | UnboundSlot
  | CyclicDependency
  | DeviceNotFound
  | UnsealedBuffer
  | BufferAlreadySealed
  | OutOfRange
  | AssertionFailed
deriving DecidableEq, Repr

/-! ## The frame graph builder -/

/-- Mode of a dependency edge. -/
inductive EdgeMode
  | Read
  | Write
  | Persist
deriving DecidableEq, Repr

/-- Modelled from the spec: a dependency edge (consumer pass, handle, mode). -/
structure DependencyEdge where
  pass : Nat
  resource : FrameGraphResource
  mode : EdgeMode
deriving DecidableEq, Repr

/-- Descriptor stored by the builder for a registered resource. -/
inductive Allocation
  | renderTarget (desc : RenderTargetDesc)
  | vertexBuffer (desc : VertexBufferDesc)
  | vertexArrayObject (desc : VertexArrayObjectDesc)
  | renderPipeline (desc : RenderPipelineDesc)
  | renderPass (desc : RenderPassDesc)
  | commandBuffer
deriving DecidableEq, Repr

/-- One call made on the builder, with the value it returned. -/
inductive BuilderCall
  | createRenderTarget (desc : RenderTargetDesc) (ret : FrameGraphResource)
  | createVertexBuffer (desc : VertexBufferDesc) (ret : FrameGraphResource)
  | createVertexArrayObject (desc : VertexArrayObjectDesc) (ret : FrameGraphResource)
  | createRenderPipeline (desc : RenderPipelineDesc) (ret : FrameGraphResource)
  | createRenderPass (desc : RenderPassDesc) (ret : FrameGraphResource)
  | createCommandBuffer (ret : FrameGraphResource)
  | read (h : FrameGraphResource)
  | write (h : FrameGraphResource)
  | persist (h : FrameGraphResource)
  | getSlot (slot : FrameGraphSlot) (ret : Option FrameGraphResource)
deriving DecidableEq, Repr

/-- Modelled from the spec: the per-frame builder (`FrameGraphBuilder`, section
4.3; its source is outside the excerpt).  It is pure bookkeeping: a handle
counter, the pass being set up, the slot table, the registered descriptors and
the dependency edges.  `calls` is the chronological log of the calls made on
the builder. -/
structure FrameGraphBuilder where
  backBufferSize : Vec2i
  renderScale : ℚ
  currentPass : Nat
  resourceCounter : Nat
  slots : List (FrameGraphSlot × FrameGraphResource)
  allocations : List (FrameGraphResource × Allocation)
  edges : List DependencyEdge
  calls : List BuilderCall

/-- The first binding of a slot in a slot table. -/
def lookupSlot (slots : List (FrameGraphSlot × FrameGraphResource)) (s : FrameGraphSlot) :
    Option FrameGraphResource :=
  (slots.find? (fun e => decide (e.1 = s))).map Prod.snd

namespace FrameGraphBuilder

/-- Registers a new resource: a fresh assigned handle, its descriptor, and an
implicit Write edge of the calling pass (section 4.3). -/
def createResource (b : FrameGraphBuilder) (a : Allocation)
    (log : FrameGraphResource → BuilderCall) : FrameGraphResource × FrameGraphBuilder :=
  let h : FrameGraphResource := ⟨b.resourceCounter, true⟩
  (h, { b with
        resourceCounter := b.resourceCounter + 1
        allocations := b.allocations ++ [(h, a)]
        edges := b.edges ++ [⟨b.currentPass, h, EdgeMode.Write⟩]
        calls := b.calls ++ [log h] })

def createRenderTarget (b : FrameGraphBuilder) (d : RenderTargetDesc) :=
  b.createResource (Allocation.renderTarget d) (BuilderCall.createRenderTarget d)

def createVertexBuffer (b : FrameGraphBuilder) (d : VertexBufferDesc) :=
  b.createResource (Allocation.vertexBuffer d) (BuilderCall.createVertexBuffer d)

def createVertexArrayObject (b : FrameGraphBuilder) (d : VertexArrayObjectDesc) :=
  b.createResource (Allocation.vertexArrayObject d) (BuilderCall.createVertexArrayObject d)

def createRenderPipeline (b : FrameGraphBuilder) (d : RenderPipelineDesc) :=
  b.createResource (Allocation.renderPipeline d) (BuilderCall.createRenderPipeline d)

def createRenderPass (b : FrameGraphBuilder) (d : RenderPassDesc) :=
  b.createResource (Allocation.renderPass d) (BuilderCall.createRenderPass d)

def createCommandBuffer (b : FrameGraphBuilder) :=
  b.createResource Allocation.commandBuffer BuilderCall.createCommandBuffer

/-- Records a Read edge of the calling pass. -/
def read (b : FrameGraphBuilder) (h : FrameGraphResource) : FrameGraphBuilder :=
  { b with edges := b.edges ++ [⟨b.currentPass, h, EdgeMode.Read⟩]
           calls := b.calls ++ [BuilderCall.read h] }

/-- Records a Write edge of the calling pass. -/
def write (b : FrameGraphBuilder) (h : FrameGraphResource) : FrameGraphBuilder :=
  { b with edges := b.edges ++ [⟨b.currentPass, h, EdgeMode.Write⟩]
           calls := b.calls ++ [BuilderCall.write h] }

/-- Marks the resource as retained across frames. -/
def persist (b : FrameGraphBuilder) (h : FrameGraphResource) : FrameGraphBuilder :=
  { b with edges := b.edges ++ [⟨b.currentPass, h, EdgeMode.Persist⟩]
           calls := b.calls ++ [BuilderCall.persist h] }

/-- The handle a slot is bound to, if a producer bound it in this frame. -/
def slotBinding (b : FrameGraphBuilder) (s : FrameGraphSlot) : Option FrameGraphResource :=
  lookupSlot b.slots s

/-- Slot lookup: `none` stands for the `UnboundSlot` failure. -/
def getSlot (b : FrameGraphBuilder) (s : FrameGraphSlot) :
    Option FrameGraphResource × FrameGraphBuilder :=
  (b.slotBinding s, { b with calls := b.calls ++ [BuilderCall.getSlot s (b.slotBinding s)] })

end FrameGraphBuilder

/-! ## The composite pass: members and `setup` -/

/-- The members of `CompositePass` that `setup` and `execute` use. -/
structure CompositePass where
  mesh : Mesh
  target : FrameGraphResource
  blitTarget : FrameGraphResource
  vertexBuffer : FrameGraphResource
  vertexArrayObject : FrameGraphResource
  blendPipeline : FrameGraphResource
  pass : FrameGraphResource
  screenColor : FrameGraphResource
  screenDepth : FrameGraphResource
  deferredColor : FrameGraphResource
  deferredDepth : FrameGraphResource
  forwardColor : FrameGraphResource
  forwardDepth : FrameGraphResource
  backgroundColor : FrameGraphResource
  commandBuffer : FrameGraphResource
  quadAllocated : Bool
deriving DecidableEq, Repr

/-- A freshly constructed pass (`CompositePass() = default`): no handle is
assigned and the quad has not been uploaded. -/
def CompositePass.fresh (mesh : Mesh) : CompositePass :=
  { mesh := mesh
    target := FrameGraphResource.unassigned
    blitTarget := FrameGraphResource.unassigned
    vertexBuffer := FrameGraphResource.unassigned
    vertexArrayObject := FrameGraphResource.unassigned
    blendPipeline := FrameGraphResource.unassigned
    pass := FrameGraphResource.unassigned
    screenColor := FrameGraphResource.unassigned
    screenDepth := FrameGraphResource.unassigned
    deferredColor := FrameGraphResource.unassigned
    deferredDepth := FrameGraphResource.unassigned
    forwardColor := FrameGraphResource.unassigned
    forwardDepth := FrameGraphResource.unassigned
    backgroundColor := FrameGraphResource.unassigned
    commandBuffer := FrameGraphResource.unassigned
    quadAllocated := false }

/-- State after a call of `setup`: the thrown error if any, the pass members and
the builder as they are when `setup` returns or throws. -/
structure SetupResult where
  error : Option FrameGraphError
  self : CompositePass
  builder : FrameGraphBuilder

/-- The render target descriptor of lines 34-38. -/
def CompositePass.rdesc (builder : FrameGraphBuilder) : RenderTargetDesc :=
  { size := builder.backBufferSize.scale builder.renderScale
    hasDepthStencilAttachment := true
    numberOfColorAttachments := 1 }

/-- The pipeline descriptor of lines 63-81. -/
def CompositePass.pdesc (self : CompositePass) : RenderPipelineDesc :=
  { shaders := [(ShaderStage.VERTEX, "compositepass_vs"), (ShaderStage.FRAGMENT, "compositepass_fs")]
    bindings := [ShaderBinding.BIND_TEXTURE_BUFFER, ShaderBinding.BIND_TEXTURE_BUFFER]
    primitive := Primitive.TRIANGLES
    vertexLayout := self.mesh.vertexLayout
    enableBlending := true
    enableDepthTest := true
    depthTestWrite := true
    colorBlendSourceMode := BlendMode.SRC_ALPHA
    colorBlendDestinationMode := BlendMode.ONE_MINUS_SRC_ALPHA
    alphaBlendSourceMode := BlendMode.ONE
    alphaBlendDestinationMode := BlendMode.ONE_MINUS_SRC_ALPHA }

/-- Lines 34-60 of `setup`: the two render targets and the persisted vertex
buffer and vertex array object. -/
def CompositePass.setupGeometry (self : CompositePass) (builder : FrameGraphBuilder) :
    CompositePass × FrameGraphBuilder :=
  let rdesc := CompositePass.rdesc builder
  let r1 := builder.createRenderTarget rdesc
  let self := { self with target := r1.1 }
  let r2 := r1.2.createRenderTarget rdesc
  let self := { self with blitTarget := r2.1 }
  let builder := (r2.2.read self.target).read self.blitTarget
  let sb : CompositePass × FrameGraphBuilder :=
    if !self.vertexBuffer.assigned then
      let r3 := builder.createVertexBuffer
        { size := self.mesh.vertices.length * self.mesh.vertexLayout.getSize }
      let self := { self with vertexBuffer := r3.1 }
      let r4 := r3.2.createVertexArrayObject { vertexLayout := self.mesh.vertexLayout }
      let self := { self with vertexArrayObject := r4.1 }
      (self, r4.2.write self.vertexBuffer)
    else (self, builder)
  let self := sb.1
  let builder := (sb.2.persist self.vertexBuffer).persist self.vertexArrayObject
  let builder := (builder.read self.vertexBuffer).read self.vertexArrayObject
  (self, builder)

/-- Lines 62-93 of `setup`: the persisted blend pipeline and the render pass. -/
def CompositePass.setupPipeline (self : CompositePass) (builder : FrameGraphBuilder) :
    CompositePass × FrameGraphBuilder :=
  let sb : CompositePass × FrameGraphBuilder :=
    if !self.blendPipeline.assigned then
      let r := builder.createRenderPipeline self.pdesc
      ({ self with blendPipeline := r.1 }, r.2)
    else (self, builder)
  let self := sb.1
  let builder := (sb.2.persist self.blendPipeline).read self.blendPipeline
  let r := builder.createRenderPass { numberOfColorAttachments := 1, hasDepthStencilAttachment := true }
  let self := { self with pass := r.1 }
  (self, r.2.read self.pass)

/-- Lines 106-115 of `setup`: the edges on the slot handles and the command
buffer. -/
def CompositePass.setupEdges (self : CompositePass) (builder : FrameGraphBuilder) :
    CompositePass × FrameGraphBuilder :=
  let builder := (builder.write self.screenColor).write self.screenDepth
  let builder := (builder.read self.deferredColor).read self.deferredDepth
  let builder := (builder.read self.forwardColor).read self.forwardDepth
  let builder := builder.read self.backgroundColor
  let r := builder.createCommandBuffer
  let self := { self with commandBuffer := r.1 }
  (self, r.2.write self.commandBuffer)

/-- Lines 95-104 of `setup`: the seven slot lookups, each assigned to its member
as soon as it returns; the first unbound slot throws `UnboundSlot`. -/
def CompositePass.setupSlots (self : CompositePass) (builder : FrameGraphBuilder) :
    SetupResult :=
  match builder.getSlot FrameGraphSlot.SLOT_SCREEN_COLOR with
  | (none, builder) => ⟨some FrameGraphError.UnboundSlot, self, builder⟩
  | (some h, builder) =>
  let self := { self with screenColor := h }
  match builder.getSlot FrameGraphSlot.SLOT_SCREEN_DEPTH with
  | (none, builder) => ⟨some FrameGraphError.UnboundSlot, self, builder⟩
  | (some h, builder) =>
  let self := { self with screenDepth := h }
  match builder.getSlot FrameGraphSlot.SLOT_DEFERRED_COLOR with
  | (none, builder) => ⟨some FrameGraphError.UnboundSlot, self, builder⟩
  | (some h, builder) =>
  let self := { self with deferredColor := h }
  match builder.getSlot FrameGraphSlot.SLOT_DEFERRED_DEPTH with
  | (none, builder) => ⟨some FrameGraphError.UnboundSlot, self, builder⟩
  | (some h, builder) =>
  let self := { self with deferredDepth := h }
  match builder.getSlot FrameGraphSlot.SLOT_FORWARD_COLOR with
  | (none, builder) => ⟨some FrameGraphError.UnboundSlot, self, builder⟩
  | (some h, builder) =>
  let self := { self with forwardColor := h }
  match builder.getSlot FrameGraphSlot.SLOT_FORWARD_DEPTH with
  | (none, builder) => ⟨some FrameGraphError.UnboundSlot, self, builder⟩
  | (some h, builder) =>
  let self := { self with forwardDepth := h }
  match builder.getSlot FrameGraphSlot.SLOT_BACKGROUND_COLOR with
  | (none, builder) => ⟨some FrameGraphError.UnboundSlot, self, builder⟩
  | (some h, builder) =>
  let self := { self with backgroundColor := h }
  ⟨none, self, builder⟩

/-- `CompositePass::setup` (lines 33-116). -/
def CompositePass.setup (self : CompositePass) (builder : FrameGraphBuilder) : SetupResult :=
  let g := self.setupGeometry builder
  let p := g.1.setupPipeline g.2
  let s := p.1.setupSlots p.2
  match s.error with
  | some e => ⟨some e, s.self, s.builder⟩
  | none =>
    let e := s.self.setupEdges s.builder
    ⟨none, e.1, e.2⟩

/-! ## Live objects and the resources handed to `execute` -/

/-- A render-target attachment: a reference to a texture buffer. -/
inductive RenderTargetAttachment
  | texture (h : FrameGraphResource)
deriving DecidableEq, Repr

/-- Modelled from the spec: a live render target (`RenderTarget`, declared
outside the excerpt): its description and the attachments bound to it. -/
structure RenderTarget where
  desc : RenderTargetDesc
  colorAttachments : List RenderTargetAttachment
  depthStencilAttachment : Option RenderTargetAttachment
deriving DecidableEq, Repr

namespace RenderTarget

def setAttachments (rt : RenderTarget) (colors : List RenderTargetAttachment)
    (depthStencil : RenderTargetAttachment) : RenderTarget :=
  { rt with colorAttachments := colors, depthStencilAttachment := some depthStencil }

def clearAttachments (rt : RenderTarget) : RenderTarget :=
  { rt with colorAttachments := [], depthStencilAttachment := none }

/-- Modelled from the spec: the completeness rule.  A target is complete iff the
number of bound colour attachments equals the declared number and a
depth-stencil attachment is bound iff one is declared. -/
def isComplete (rt : RenderTarget) : Bool :=
  rt.colorAttachments.length == rt.desc.numberOfColorAttachments
    && (rt.depthStencilAttachment.isSome == rt.desc.hasDepthStencilAttachment)

end RenderTarget

/-- Texture filters of a blit. -/
inductive TextureFiltering
  | NEAREST
  | LINEAR
deriving DecidableEq, Repr

/-- Access modes of a shader resource. -/
inductive ShaderAccess
  | READ
  | WRITE
  | READ_WRITE
deriving DecidableEq, Repr

/-- The commands the pass records.  Objects are referred to by their handles. -/
inductive Command
  | blitColor (target source : FrameGraphResource) (sourceOffset targetOffset : Vec2i)
      (sourceRect targetRect : Vec2i) (filter : TextureFiltering)
      (sourceIndex targetIndex : Nat)
  | beginPass (pass target : FrameGraphResource)
  | bindPipeline (pipeline : FrameGraphResource)
  | bindVertexArrayObject (vao : FrameGraphResource)
  | bindShaderResources
      (resources : List (FrameGraphResource × List (ShaderStage × ShaderAccess)))
  | drawArray (pass : FrameGraphResource) (offset count : Nat)
  | endPass (pass : FrameGraphResource)
deriving DecidableEq, Repr

/-- Modelled from the spec: the states of a command buffer (section 4.5). -/
inductive CommandBufferState
  | Empty
  | Recording
  | Sealed
  | Submitted
  | Retired
deriving DecidableEq, Repr

/-- Modelled from the spec: a command buffer (`CommandBuffer`, declared outside
the excerpt) with the state machine of section 4.5:
`Empty -> Recording (begin) -> Sealed (end) -> Submitted -> Retired`. -/
structure CommandBuffer where
  state : CommandBufferState
  commands : List Command
deriving DecidableEq, Repr

namespace CommandBuffer

/-- Opens the buffer: only an `Empty` buffer can start recording; re-entering
`Recording` later fails with `BufferAlreadySealed`. -/
def begin (cb : CommandBuffer) : Except FrameGraphError CommandBuffer :=
  match cb.state with
  | CommandBufferState.Empty => Except.ok { cb with state := CommandBufferState.Recording }
  | _ => Except.error FrameGraphError.BufferAlreadySealed

/-- Appends commands: outside the bracket this is `UnsealedBuffer` before
`begin` and `BufferAlreadySealed` after `end`. -/
def add (cb : CommandBuffer) (cmds : List Command) : Except FrameGraphError CommandBuffer :=
  match cb.state with
  | CommandBufferState.Recording => Except.ok { cb with commands := cb.commands ++ cmds }
  | CommandBufferState.Empty => Except.error FrameGraphError.UnsealedBuffer
  | _ => Except.error FrameGraphError.BufferAlreadySealed

/-- Seals the buffer (`end` of the source). -/
def end_ (cb : CommandBuffer) : Except FrameGraphError CommandBuffer :=
  match cb.state with
  | CommandBufferState.Recording => Except.ok { cb with state := CommandBufferState.Sealed }
  | CommandBufferState.Empty => Except.error FrameGraphError.UnsealedBuffer
  | _ => Except.error FrameGraphError.BufferAlreadySealed

/-- Hands the buffer to a queue: only a sealed buffer can be submitted. -/
def submitted (cb : CommandBuffer) : Except FrameGraphError CommandBuffer :=
  match cb.state with
  | CommandBufferState.Sealed => Except.ok { cb with state := CommandBufferState.Submitted }
  | CommandBufferState.Empty => Except.error FrameGraphError.UnsealedBuffer
  | CommandBufferState.Recording => Except.error FrameGraphError.UnsealedBuffer
  | _ => Except.error FrameGraphError.BufferAlreadySealed

end CommandBuffer

/-- A live vertex buffer: the uploads it received, as (offset, bytes). -/
structure VertexBuffer where
  uploads : List (Nat × List Nat)
deriving DecidableEq, Repr

/-- A live vertex array object: the vertex buffer bound to it. -/
structure VertexArrayObject where
  buffers : Option FrameGraphResource
deriving DecidableEq, Repr

/-- The kinds of objects a handle can resolve to. -/
inductive ObjectKind
  | RenderTarget
  | VertexBuffer
  | VertexArrayObject
  | RenderPipeline
  | RenderPass
  | TextureBuffer
  | CommandBuffer
deriving DecidableEq, Repr

/-- A live object of the frame graph. -/
inductive RenderObject
  | renderTarget (rt : RenderTarget)
  | vertexBuffer (vb : VertexBuffer)
  | vertexArrayObject (vao : VertexArrayObject)
  | renderPipeline
  | renderPass
  | textureBuffer
  | commandBuffer (cb : CommandBuffer)
deriving DecidableEq, Repr

def RenderObject.kind : RenderObject → ObjectKind
  | RenderObject.renderTarget _ => ObjectKind.RenderTarget
  | RenderObject.vertexBuffer _ => ObjectKind.VertexBuffer
  | RenderObject.vertexArrayObject _ => ObjectKind.VertexArrayObject
  | RenderObject.renderPipeline => ObjectKind.RenderPipeline
  | RenderObject.renderPass => ObjectKind.RenderPass
  | RenderObject.textureBuffer => ObjectKind.TextureBuffer
  | RenderObject.commandBuffer _ => ObjectKind.CommandBuffer

/-- Modelled from the spec: the resolved resources of a pass
(`FrameGraphPassResources`, section 4.1): a map from handles to live objects.
`get<T>(h)` fails with `UnresolvedHandle` when no object of type `T` is behind
the handle. -/
structure FrameGraphPassResources where
  objects : FrameGraphResource → Option RenderObject

namespace FrameGraphPassResources

/-- Whether `get<T>(h)` succeeds. -/
def resolves (r : FrameGraphPassResources) (h : FrameGraphResource) (k : ObjectKind) : Bool :=
  match r.objects h with
  | some o => decide (o.kind = k)
  | none => false

def set (r : FrameGraphPassResources) (h : FrameGraphResource) (o : RenderObject) :
    FrameGraphPassResources :=
  ⟨fun k => if k = h then some o else r.objects k⟩

/-- The render target behind a reference obtained by `get<RenderTarget>`. -/
def renderTarget (r : FrameGraphPassResources) (h : FrameGraphResource) : Option RenderTarget :=
  match r.objects h with
  | some (RenderObject.renderTarget rt) => some rt
  | _ => none

/-- The command buffer behind a reference obtained by `get<CommandBuffer>`. -/
def commandBuffer (r : FrameGraphPassResources) (h : FrameGraphResource) : Option CommandBuffer :=
  match r.objects h with
  | some (RenderObject.commandBuffer cb) => some cb
  | _ => none

/-- A mutation through a `RenderTarget &`. -/
def modifyRenderTarget (r : FrameGraphPassResources) (h : FrameGraphResource)
    (f : RenderTarget → RenderTarget) : FrameGraphPassResources :=
  match r.objects h with
  | some (RenderObject.renderTarget rt) => r.set h (RenderObject.renderTarget (f rt))
  | _ => r

/-- A mutation through a `VertexBuffer &`. -/
def modifyVertexBuffer (r : FrameGraphPassResources) (h : FrameGraphResource)
    (f : VertexBuffer → VertexBuffer) : FrameGraphPassResources :=
  match r.objects h with
  | some (RenderObject.vertexBuffer vb) => r.set h (RenderObject.vertexBuffer (f vb))
  | _ => r

/-- A mutation through a `VertexArrayObject &`. -/
def modifyVertexArrayObject (r : FrameGraphPassResources) (h : FrameGraphResource)
    (f : VertexArrayObject → VertexArrayObject) : FrameGraphPassResources :=
  match r.objects h with
  | some (RenderObject.vertexArrayObject vao) => r.set h (RenderObject.vertexArrayObject (f vao))
  | _ => r

end FrameGraphPassResources

/-- The three kinds of queues. -/
inductive QueueKind
  | Render
  | Compute
  | Transfer
deriving DecidableEq, Repr

/-- Modelled from the spec: a command queue, as the FIFO list of its
submissions; a submission is the list of buffers handed over, each with the
commands it held. -/
structure CommandQueue where
  submissions : List (List (FrameGraphResource × List Command))
deriving DecidableEq, Repr

/-- The observable operations of one `execute`, in program order. -/
inductive ExecOp
  | get (h : FrameGraphResource) (k : ObjectKind)
  | upload (vb : FrameGraphResource) (offset : Nat) (data : List Nat)
  | setBuffers (vao vb : FrameGraphResource)
  | setAttachments (rt : FrameGraphResource) (colors : List RenderTargetAttachment)
      (depthStencil : RenderTargetAttachment)
  | assertComplete (rt : FrameGraphResource)
  | construct (c : Command)
  | bufferBegin (cb : FrameGraphResource)
  | bufferAdd (cb : FrameGraphResource) (cmds : List Command)
  | bufferEnd (cb : FrameGraphResource)
  | submit (kind : QueueKind) (index : Nat) (buffers : List FrameGraphResource)
  | clearAttachments (rt : FrameGraphResource)
deriving DecidableEq, Repr

/-- State of one `execute` call: the error thrown if any, the pass members, the
live objects, the queues and the operations performed so far. -/
structure ExecState where
  error : Option FrameGraphError
  self : CompositePass
  resources : FrameGraphPassResources
  renderQueues : List CommandQueue
  computeQueues : List CommandQueue
  transferQueues : List CommandQueue
  trace : List ExecOp

namespace ExecState

/-- Sequencing: once an exception is in flight the remaining statements are
skipped. -/
def andThen (s : ExecState) (f : ExecState → ExecState) : ExecState :=
  match s.error with
  | some _ => s
  | none => f s

def throw (s : ExecState) (e : FrameGraphError) : ExecState := { s with error := some e }

def log (s : ExecState) (op : ExecOp) : ExecState := { s with trace := s.trace ++ [op] }

/-- One `resources.get<T>(h)`. -/
def get (s : ExecState) (h : FrameGraphResource) (k : ObjectKind) : ExecState :=
  let s := s.log (ExecOp.get h k)
  if s.resources.resolves h k then s else s.throw FrameGraphError.UnresolvedHandle

end ExecState

/-! ## `CompositePass::execute` -/

namespace CompositePass

/-- Lines 122-142: the fourteen `resources.get` calls. -/
def resolveHandles (s : ExecState) : ExecState :=
  (s.get s.self.target ObjectKind.RenderTarget)
    |>.andThen (fun s => s.get s.self.blitTarget ObjectKind.RenderTarget)
    |>.andThen (fun s => s.get s.self.blendPipeline ObjectKind.RenderPipeline)
    |>.andThen (fun s => s.get s.self.pass ObjectKind.RenderPass)
    |>.andThen (fun s => s.get s.self.vertexBuffer ObjectKind.VertexBuffer)
    |>.andThen (fun s => s.get s.self.vertexArrayObject ObjectKind.VertexArrayObject)
    |>.andThen (fun s => s.get s.self.screenColor ObjectKind.TextureBuffer)
    |>.andThen (fun s => s.get s.self.screenDepth ObjectKind.TextureBuffer)
    |>.andThen (fun s => s.get s.self.deferredColor ObjectKind.TextureBuffer)
    |>.andThen (fun s => s.get s.self.deferredDepth ObjectKind.TextureBuffer)
    |>.andThen (fun s => s.get s.self.forwardColor ObjectKind.TextureBuffer)
    |>.andThen (fun s => s.get s.self.forwardDepth ObjectKind.TextureBuffer)
    |>.andThen (fun s => s.get s.self.backgroundColor ObjectKind.TextureBuffer)
    |>.andThen (fun s => s.get s.self.commandBuffer ObjectKind.CommandBuffer)

/-- The bytes of `VertexStream().addVertices(mesh.vertices).getVertexBuffer()`. -/
def quadBytes (self : CompositePass) : List Nat :=
  self.mesh.vertices.flatMap Vertex.buffer

/-- Lines 144-151: the one-time upload of the quad. -/
def uploadQuad (s : ExecState) : ExecState :=
  if !s.self.quadAllocated then
    let s := { s with self := { s.self with quadAllocated := true } }
    let verts := s.self.quadBytes
    let r := s.resources.modifyVertexBuffer s.self.vertexBuffer
      (fun vb => { vb with uploads := vb.uploads ++ [(0, verts)] })
    let s := ({ s with resources := r }).log (ExecOp.upload s.self.vertexBuffer 0 verts)
    let r := s.resources.modifyVertexArrayObject s.self.vertexArrayObject
      (fun vao => { vao with buffers := some s.self.vertexBuffer })
    let s := { s with resources := r }
    s.log (ExecOp.setBuffers s.self.vertexArrayObject s.self.vertexBuffer)
  else s

/-- One `rt.setAttachments(colors, depthStencil)`. -/
def setAttachments (s : ExecState) (rt : FrameGraphResource)
    (colors : List RenderTargetAttachment) (depthStencil : RenderTargetAttachment) : ExecState :=
  let r := s.resources.modifyRenderTarget rt (fun t => t.setAttachments colors depthStencil)
  ({ s with resources := r }).log (ExecOp.setAttachments rt colors depthStencil)

/-- One `assert(rt.isComplete())`. -/
def assertComplete (s : ExecState) (rt : FrameGraphResource) : ExecState :=
  let s := s.log (ExecOp.assertComplete rt)
  match s.resources.renderTarget rt with
  | some t => if t.isComplete then s else s.throw FrameGraphError.AssertionFailed
  | none => s.throw FrameGraphError.AssertionFailed

/-- Lines 153-157: the attachments of both targets and the two assertions. -/
def attach (s : ExecState) : ExecState :=
  let s := setAttachments s s.self.target
    [RenderTargetAttachment.texture s.self.screenColor]
    (RenderTargetAttachment.texture s.self.screenDepth)
  let s := setAttachments s s.self.blitTarget
    [RenderTargetAttachment.texture s.self.backgroundColor]
    (RenderTargetAttachment.texture s.self.deferredDepth)
  (assertComplete s s.self.target).andThen (fun s => assertComplete s s.self.blitTarget)

/-- The size in the description of the render target behind a reference. -/
def targetSize (r : FrameGraphPassResources) (h : FrameGraphResource) : Vec2i :=
  match r.renderTarget h with
  | some t => t.desc.size
  | none => ⟨0, 0⟩

/-- Lines 159-194: the commands, in the order they are emplaced. -/
def commands (self : CompositePass) (r : FrameGraphPassResources) : List Command :=
  [ Command.blitColor self.target self.blitTarget ⟨0, 0⟩ ⟨0, 0⟩
      (targetSize r self.blitTarget) (targetSize r self.target) TextureFiltering.NEAREST 0 0,
    Command.beginPass self.pass self.target,
    Command.bindPipeline self.blendPipeline,
    Command.bindVertexArrayObject self.vertexArrayObject,
    Command.bindShaderResources
      [ (self.deferredColor, [(ShaderStage.FRAGMENT, ShaderAccess.READ)]),
        (self.deferredDepth, [(ShaderStage.FRAGMENT, ShaderAccess.READ)]) ],
    Command.drawArray self.pass 0 self.mesh.vertices.length,
    Command.bindShaderResources
      [ (self.forwardColor, [(ShaderStage.FRAGMENT, ShaderAccess.READ)]),
        (self.forwardDepth, [(ShaderStage.FRAGMENT, ShaderAccess.READ)]) ],
    Command.drawArray self.pass 0 self.mesh.vertices.length,
    Command.endPass self.pass ]

/-- A call on the command buffer behind `cBuffer`: the operation is logged, then
applied; a contract violation is thrown. -/
def onCommandBuffer (s : ExecState) (op : ExecOp)
    (f : CommandBuffer → Except FrameGraphError CommandBuffer) : ExecState :=
  let s := s.log op
  match s.resources.commandBuffer s.self.commandBuffer with
  | none => s.throw FrameGraphError.UnresolvedHandle
  | some cb =>
    match f cb with
    | Except.error e => s.throw e
    | Except.ok cb =>
      { s with resources := s.resources.set s.self.commandBuffer (RenderObject.commandBuffer cb) }

/-- Lines 159-198: the command list is built, then recorded between `begin` and
`end`. -/
def record (s : ExecState) : ExecState :=
  let cmds := commands s.self s.resources
  let s := { s with trace := s.trace ++ cmds.map ExecOp.construct }
  (onCommandBuffer s (ExecOp.bufferBegin s.self.commandBuffer) CommandBuffer.begin)
    |>.andThen (fun s =>
      onCommandBuffer s (ExecOp.bufferAdd s.self.commandBuffer cmds) (fun cb => cb.add cmds))
    |>.andThen (fun s =>
      onCommandBuffer s (ExecOp.bufferEnd s.self.commandBuffer) CommandBuffer.end_)

/-- Line 200: `renderQueues.at(0).get().submit({cBuffer}, {}, {})`. -/
def submit (s : ExecState) : ExecState :=
  match s.renderQueues with
  | [] => s.throw FrameGraphError.OutOfRange
  | q :: qs =>
    let s := s.log (ExecOp.submit QueueKind.Render 0 [s.self.commandBuffer])
    match s.resources.commandBuffer s.self.commandBuffer with
    | none => s.throw FrameGraphError.UnresolvedHandle
    | some cb =>
      match cb.submitted with
      | Except.error e => s.throw e
      | Except.ok cb1 =>
        { s with
          resources := s.resources.set s.self.commandBuffer (RenderObject.commandBuffer cb1)
          renderQueues :=
            { q with submissions := q.submissions ++ [[(s.self.commandBuffer, cb.commands)]] }
              :: qs }

/-- Lines 202-203: the attachments of both targets are cleared. -/
def clear (s : ExecState) : ExecState :=
  let r := s.resources.modifyRenderTarget s.self.blitTarget RenderTarget.clearAttachments
  let s := ({ s with resources := r }).log (ExecOp.clearAttachments s.self.blitTarget)
  let r := s.resources.modifyRenderTarget s.self.target RenderTarget.clearAttachments
  ({ s with resources := r }).log (ExecOp.clearAttachments s.self.target)

/-- `CompositePass::execute` (lines 118-204). -/
def execute (self : CompositePass) (resources : FrameGraphPassResources)
    (renderQueues computeQueues transferQueues : List CommandQueue) : ExecState :=
  (resolveHandles ⟨none, self, resources, renderQueues, computeQueues, transferQueues, []⟩)
    |>.andThen uploadQuad
    |>.andThen attach
    |>.andThen record
    |>.andThen submit
    |>.andThen clear

end CompositePass

/-! ## Frames: consecutive setups and executes of one pass object -/

/-- The handle a builder call returned, if it returns one. -/
def BuilderCall.returned : BuilderCall → Option FrameGraphResource
  | BuilderCall.createRenderTarget _ h => some h
  | BuilderCall.createVertexBuffer _ h => some h
  | BuilderCall.createVertexArrayObject _ h => some h
  | BuilderCall.createRenderPipeline _ h => some h
  | BuilderCall.createRenderPass _ h => some h
  | BuilderCall.createCommandBuffer h => some h
  | BuilderCall.getSlot _ r => r
  | _ => none

/-- The calls one `setup` adds to the log of its builder. -/
def CompositePass.setupCalls (self : CompositePass) (builder : FrameGraphBuilder) :
    List BuilderCall :=
  (self.setup builder).builder.calls.drop builder.calls.length

/-- The calls made by `setup` on the same pass object over consecutive frames,
each frame with its own builder, in chronological order. -/
def CompositePass.setupFrames (self : CompositePass) : List FrameGraphBuilder → List BuilderCall
  | [] => []
  | b :: bs => self.setupCalls b ++ CompositePass.setupFrames (self.setup b).self bs

/-- What the frame loop hands to one `execute`. -/
structure FrameEnv where
  resources : FrameGraphPassResources
  renderQueues : List CommandQueue
  computeQueues : List CommandQueue
  transferQueues : List CommandQueue

/-- Consecutive `execute` calls on the same pass object, one per frame. -/
def CompositePass.executeFrames (self : CompositePass) : List FrameEnv → List ExecState
  | [] => []
  | e :: es =>
    let s := self.execute e.resources e.renderQueues e.computeQueues e.transferQueues
    s :: CompositePass.executeFrames s.self es

/-- The descriptor the builder holds for a handle (the latest registration). -/
def FrameGraphBuilder.allocationOf (b : FrameGraphBuilder) (h : FrameGraphResource) :
    Option Allocation :=
  (b.allocations.reverse.find? (fun e => decide (e.1 = h))).map Prod.snd

/-- Whether a live object is what a descriptor asks for. -/
def Allocation.describes : Allocation → RenderObject → Bool
  | Allocation.renderTarget d, RenderObject.renderTarget rt => decide (rt.desc = d)
  | Allocation.vertexBuffer _, RenderObject.vertexBuffer _ => true
  | Allocation.vertexArrayObject _, RenderObject.vertexArrayObject _ => true
  | Allocation.renderPipeline _, RenderObject.renderPipeline => true
  | Allocation.renderPass _, RenderObject.renderPass => true
  | Allocation.commandBuffer, RenderObject.commandBuffer _ => true
  | _, _ => false

/-- Modelled from the spec: what the executor guarantees when it calls `execute`
(section 4.5, "resolved handles already materialized into live objects"): every
handle registered through the builder resolves to a live object created from
the registered descriptor. -/
def FrameGraphPassResources.Materializes (r : FrameGraphPassResources)
    (b : FrameGraphBuilder) : Prop :=
  ∀ h a, b.allocationOf h = some a → ∃ o, r.objects h = some o ∧ a.describes o = true

/-! ## The dependency resolver -/

/-- Modelled from the spec: the dependency relation of section 4.4.  Pass `b`
depends on pass `a` when `a` has a Write edge on a handle on which `b` has a
Read edge.  A pass does not wait for itself: section 8 speaks of cycles
"between two or more passes". -/
def dependsOn (edges : List DependencyEdge) (b a : Nat) : Bool :=
  decide (a ≠ b ∧ ∃ w ∈ edges, w.pass = a ∧ w.mode = EdgeMode.Write ∧
    (⟨b, w.resource, EdgeMode.Read⟩ : DependencyEdge) ∈ edges)

/-- Modelled from the spec: the resolver loop.  Among the passes not yet placed,
the first one in registration order none of whose dependencies is still
waiting is placed next; when passes are left and none is ready the graph has a
cycle. -/
def resolveAux (edges : List DependencyEdge) :
    Nat → List Nat → List Nat → Except FrameGraphError (List Nat)
  | 0, remaining, done =>
    if remaining.isEmpty then Except.ok done else Except.error FrameGraphError.CyclicDependency
  | fuel + 1, remaining, done =>
    match remaining.find? (fun p => remaining.all (fun q => !dependsOn edges p q)) with
    | none =>
      if remaining.isEmpty then Except.ok done
      else Except.error FrameGraphError.CyclicDependency
    | some p => resolveAux edges fuel (remaining.erase p) (done ++ [p])

/-- Modelled from the spec: the dependency resolver (section 4.4; its source is
outside the excerpt): a stable topological ordering of the passes, or
`CyclicDependency`. -/
def resolve (passes : List Nat) (edges : List DependencyEdge) :
    Except FrameGraphError (List Nat) :=
  resolveAux edges passes.length passes []

/-! ## `PhysicsDriver::load` -/

/-- The enumerators of `PhysicsDriverBackend`, as the integers C++ gives them. -/
def BOX2D : Int := 0

def BULLET3 : Int := 1

/-- A loaded driver object: what was asked for and whether its dynamic type
derives from `PhysicsDriver`. -/
structure Driver where
  name : String
  isPhysicsDriver : Bool
deriving DecidableEq, Repr

/-- What `PhysicsDriver::load` can throw: its own `std::runtime_error`, or
whatever escapes from `Driver::load`. -/
inductive LoadException (ε : Type)
  | runtimeError (msg : String)
  | fromDriverLoad (e : ε)
deriving DecidableEq, Repr

/-- Outcome of `PhysicsDriver::load`: the names passed to `Driver::load`, and
the returned pointer (`none` is the null pointer) or the exception. -/
structure LoadResult (ε : Type) where
  requested : List String
  outcome : Except (LoadException ε) (Option Driver)

/-- `dynamic_cast<PhysicsDriver *>` on the released pointer. -/
def Driver.downcast (d : Option Driver) : Option Driver :=
  d.filter (fun x => x.isPhysicsDriver)

/-- One `Driver::load(name)` followed by the downcast. `Driver::load` is declared
outside the excerpt and is a parameter. -/
def PhysicsDriver.loadNamed {ε : Type} (driverLoad : String → Except ε (Option Driver))
    (name : String) : LoadResult ε :=
  match driverLoad name with
  | Except.ok d => ⟨[name], Except.ok (Driver.downcast d)⟩
  | Except.error e => ⟨[name], Except.error (LoadException.fromDriverLoad e)⟩

/-- `PhysicsDriver::load` (physicsdriver.hpp lines 37-47). -/
def PhysicsDriver.load {ε : Type} (driverLoad : String → Except ε (Option Driver))
    (backend : Int) : LoadResult ε :=
  if backend = BOX2D then PhysicsDriver.loadNamed driverLoad "box2d"
  else if backend = BULLET3 then PhysicsDriver.loadNamed driverLoad "bullet3"
  else ⟨[], Except.error (LoadException.runtimeError "Invalid backend")⟩

/-! ## Sample inputs -/

/-- A quad of four two-byte vertices. -/
def sampleMesh : Mesh :=
  { vertices := [⟨[0, 0]⟩, ⟨[1, 0]⟩, ⟨[0, 1]⟩, ⟨[1, 1]⟩], vertexLayout := ⟨[1, 1]⟩ }

/-- A builder at the start of the composite pass setup, all seven slots bound to
textures produced by earlier passes (handles 0 to 6). -/
def sampleBuilder : FrameGraphBuilder :=
  { backBufferSize := ⟨640, 480⟩
    renderScale := 1
    currentPass := 0
    resourceCounter := 7
    slots := [ (FrameGraphSlot.SLOT_SCREEN_COLOR, ⟨0, true⟩),
               (FrameGraphSlot.SLOT_SCREEN_DEPTH, ⟨1, true⟩),
               (FrameGraphSlot.SLOT_DEFERRED_COLOR, ⟨2, true⟩),
               (FrameGraphSlot.SLOT_DEFERRED_DEPTH, ⟨3, true⟩),
               (FrameGraphSlot.SLOT_FORWARD_COLOR, ⟨4, true⟩),
               (FrameGraphSlot.SLOT_FORWARD_DEPTH, ⟨5, true⟩),
               (FrameGraphSlot.SLOT_BACKGROUND_COLOR, ⟨6, true⟩) ]
    allocations := []
    edges := []
    calls := [] }

/-- The pass after its first setup on `sampleBuilder`. -/
def samplePass : CompositePass := ((CompositePass.fresh sampleMesh).setup sampleBuilder).self

/-- Live objects for `samplePass`: textures 0-6, render targets 7 and 8, vertex
buffer 9, vertex array object 10, pipeline 11, render pass 12, command buffer
13 (empty). -/
def sampleResources : FrameGraphPassResources :=
  ⟨fun h =>
    if h.assigned then
      if h.index < 7 then some RenderObject.textureBuffer
      else if h.index < 9 then
        some (RenderObject.renderTarget ⟨⟨⟨640, 480⟩, true, 1⟩, [], none⟩)
      else if h.index = 9 then some (RenderObject.vertexBuffer ⟨[]⟩)
      else if h.index = 10 then some (RenderObject.vertexArrayObject ⟨none⟩)
      else if h.index = 11 then some RenderObject.renderPipeline
      else if h.index = 12 then some RenderObject.renderPass
      else if h.index = 13 then
        some (RenderObject.commandBuffer ⟨CommandBufferState.Empty, []⟩)
      else none
    else none⟩

/-- The builder of the next frame: same slots, handles 0 to 13 already used. -/
def sampleBuilderNext : FrameGraphBuilder := { sampleBuilder with resourceCounter := 14 }

/-- One render queue, no compute or transfer queue. -/
def sampleEnv : FrameEnv := ⟨sampleResources, [⟨[]⟩], [], []⟩

/-- The same resources, but no render queue at all. -/
def sampleEnvNoQueue : FrameEnv := ⟨sampleResources, [], [], []⟩


/-! ## Vocabulary of the statements -/

def BuilderCall.isCreateVertexBuffer : BuilderCall → Bool
  | BuilderCall.createVertexBuffer _ _ => true
  | _ => false

def BuilderCall.isCreateVertexArrayObject : BuilderCall → Bool
  | BuilderCall.createVertexArrayObject _ _ => true
  | _ => false

def BuilderCall.isCreateRenderPipeline : BuilderCall → Bool
  | BuilderCall.createRenderPipeline _ _ => true
  | _ => false

def BuilderCall.isGetSlot : BuilderCall → Bool
  | BuilderCall.getSlot _ _ => true
  | _ => false

/-- A `read` or a `write` call. -/
def BuilderCall.isReadOrWrite : BuilderCall → Bool
  | BuilderCall.read _ => true
  | BuilderCall.write _ => true
  | _ => false

/-- The seven slots `setup` looks up, in the order of lines 95-104. -/
def CompositePass.slotOrder : List FrameGraphSlot :=
  [ FrameGraphSlot.SLOT_SCREEN_COLOR, FrameGraphSlot.SLOT_SCREEN_DEPTH,
    FrameGraphSlot.SLOT_DEFERRED_COLOR, FrameGraphSlot.SLOT_DEFERRED_DEPTH,
    FrameGraphSlot.SLOT_FORWARD_COLOR, FrameGraphSlot.SLOT_FORWARD_DEPTH,
    FrameGraphSlot.SLOT_BACKGROUND_COLOR ]

/-- The `getSlot` calls made when the slots of a list are looked up in turn and
the first unbound one throws. -/
def FrameGraphBuilder.lookups (b : FrameGraphBuilder) : List FrameGraphSlot → List BuilderCall
  | [] => []
  | s :: ss =>
    BuilderCall.getSlot s (b.slotBinding s)
      :: (if (b.slotBinding s).isSome then FrameGraphBuilder.lookups b ss else [])


/-- The calls of `setup` in source order (lines 39-115), written with the
members the pass holds after the call: `before` is the pass at entry, `after`
the pass at exit, `completed` tells whether the slot lookups all succeeded. -/
def CompositePass.callScript (before after : CompositePass) (b : FrameGraphBuilder)
    (completed : Bool) : List BuilderCall :=
  [ BuilderCall.createRenderTarget (CompositePass.rdesc b) after.target,
    BuilderCall.createRenderTarget (CompositePass.rdesc b) after.blitTarget,
    BuilderCall.read after.target,
    BuilderCall.read after.blitTarget ]
  ++ (if before.vertexBuffer.assigned then []
      else [ BuilderCall.createVertexBuffer
               { size := before.mesh.vertices.length * before.mesh.vertexLayout.getSize }
               after.vertexBuffer,
             BuilderCall.createVertexArrayObject { vertexLayout := before.mesh.vertexLayout }
               after.vertexArrayObject,
             BuilderCall.write after.vertexBuffer ])
  ++ [ BuilderCall.persist after.vertexBuffer,
       BuilderCall.persist after.vertexArrayObject,
       BuilderCall.read after.vertexBuffer,
       BuilderCall.read after.vertexArrayObject ]
  ++ (if before.blendPipeline.assigned then []
      else [ BuilderCall.createRenderPipeline before.pdesc after.blendPipeline ])
  ++ [ BuilderCall.persist after.blendPipeline,
       BuilderCall.read after.blendPipeline,
       BuilderCall.createRenderPass
         { numberOfColorAttachments := 1, hasDepthStencilAttachment := true } after.pass,
       BuilderCall.read after.pass ]
  ++ b.lookups CompositePass.slotOrder
  ++ (if completed then
        [ BuilderCall.write after.screenColor,
          BuilderCall.write after.screenDepth,
          BuilderCall.read after.deferredColor,
          BuilderCall.read after.deferredDepth,
          BuilderCall.read after.forwardColor,
          BuilderCall.read after.forwardDepth,
          BuilderCall.read after.backgroundColor,
          BuilderCall.createCommandBuffer after.commandBuffer,
          BuilderCall.write after.commandBuffer ]
      else [])

/-- The dependency edge a builder call records for the calling pass. -/
def BuilderCall.edge (pass : Nat) : BuilderCall → Option DependencyEdge
  | BuilderCall.createRenderTarget _ h => some ⟨pass, h, EdgeMode.Write⟩
  | BuilderCall.createVertexBuffer _ h => some ⟨pass, h, EdgeMode.Write⟩
  | BuilderCall.createVertexArrayObject _ h => some ⟨pass, h, EdgeMode.Write⟩
  | BuilderCall.createRenderPipeline _ h => some ⟨pass, h, EdgeMode.Write⟩
  | BuilderCall.createRenderPass _ h => some ⟨pass, h, EdgeMode.Write⟩
  | BuilderCall.createCommandBuffer h => some ⟨pass, h, EdgeMode.Write⟩
  | BuilderCall.read h => some ⟨pass, h, EdgeMode.Read⟩
  | BuilderCall.write h => some ⟨pass, h, EdgeMode.Write⟩
  | BuilderCall.persist h => some ⟨pass, h, EdgeMode.Persist⟩
  | BuilderCall.getSlot _ _ => none


namespace CompositePass

/-- The fourteen `resources.get` calls of lines 122-142. -/
def getOps (self : CompositePass) : List ExecOp :=
  [ ExecOp.get self.target ObjectKind.RenderTarget,
    ExecOp.get self.blitTarget ObjectKind.RenderTarget,
    ExecOp.get self.blendPipeline ObjectKind.RenderPipeline,
    ExecOp.get self.pass ObjectKind.RenderPass,
    ExecOp.get self.vertexBuffer ObjectKind.VertexBuffer,
    ExecOp.get self.vertexArrayObject ObjectKind.VertexArrayObject,
    ExecOp.get self.screenColor ObjectKind.TextureBuffer,
    ExecOp.get self.screenDepth ObjectKind.TextureBuffer,
    ExecOp.get self.deferredColor ObjectKind.TextureBuffer,
    ExecOp.get self.deferredDepth ObjectKind.TextureBuffer,
    ExecOp.get self.forwardColor ObjectKind.TextureBuffer,
    ExecOp.get self.forwardDepth ObjectKind.TextureBuffer,
    ExecOp.get self.backgroundColor ObjectKind.TextureBuffer,
    ExecOp.get self.commandBuffer ObjectKind.CommandBuffer ]

/-- The upload of the quad (lines 147-150), made when it has not been made yet. -/
def uploadOps (self : CompositePass) : List ExecOp :=
  if self.quadAllocated then []
  else [ ExecOp.upload self.vertexBuffer 0 self.quadBytes,
         ExecOp.setBuffers self.vertexArrayObject self.vertexBuffer ]

/-- The attachments and the two assertions (lines 153-157). -/
def attachOps (self : CompositePass) : List ExecOp :=
  [ ExecOp.setAttachments self.target [RenderTargetAttachment.texture self.screenColor]
      (RenderTargetAttachment.texture self.screenDepth),
    ExecOp.setAttachments self.blitTarget [RenderTargetAttachment.texture self.backgroundColor]
      (RenderTargetAttachment.texture self.deferredDepth),
    ExecOp.assertComplete self.target,
    ExecOp.assertComplete self.blitTarget ]

/-- The construction of the commands and the bracket on the command buffer
(lines 159-198). -/
def recordOps (self : CompositePass) (r : FrameGraphPassResources) : List ExecOp :=
  (commands self r).map ExecOp.construct
  ++ [ ExecOp.bufferBegin self.commandBuffer,
       ExecOp.bufferAdd self.commandBuffer (commands self r),
       ExecOp.bufferEnd self.commandBuffer ]

/-- The submission and the clearing of the attachments (lines 200-203). -/
def finishOps (self : CompositePass) : List ExecOp :=
  [ ExecOp.submit QueueKind.Render 0 [self.commandBuffer],
    ExecOp.clearAttachments self.blitTarget,
    ExecOp.clearAttachments self.target ]

/-- The operations of an `execute` that runs to its end, in program order. -/
def script (self : CompositePass) (r : FrameGraphPassResources) : List ExecOp :=
  getOps self ++ uploadOps self ++ attachOps self ++ recordOps self r ++ finishOps self

end CompositePass


namespace CompositePass

/-- Whether the fourteen `resources.get` calls all succeed. -/
def allResolve (self : CompositePass) (r : FrameGraphPassResources) : Bool :=
  r.resolves self.target ObjectKind.RenderTarget
  && r.resolves self.blitTarget ObjectKind.RenderTarget
  && r.resolves self.blendPipeline ObjectKind.RenderPipeline
  && r.resolves self.pass ObjectKind.RenderPass
  && r.resolves self.vertexBuffer ObjectKind.VertexBuffer
  && r.resolves self.vertexArrayObject ObjectKind.VertexArrayObject
  && r.resolves self.screenColor ObjectKind.TextureBuffer
  && r.resolves self.screenDepth ObjectKind.TextureBuffer
  && r.resolves self.deferredColor ObjectKind.TextureBuffer
  && r.resolves self.deferredDepth ObjectKind.TextureBuffer
  && r.resolves self.forwardColor ObjectKind.TextureBuffer
  && r.resolves self.forwardDepth ObjectKind.TextureBuffer
  && r.resolves self.backgroundColor ObjectKind.TextureBuffer
  && r.resolves self.commandBuffer ObjectKind.CommandBuffer

/-- The live objects after the upload stage (lines 144-151). -/
def afterUpload (self : CompositePass) (r : FrameGraphPassResources) : FrameGraphPassResources :=
  if self.quadAllocated then r
  else
    (r.modifyVertexBuffer self.vertexBuffer
        (fun vb => { vb with uploads := vb.uploads ++ [(0, self.quadBytes)] })).modifyVertexArrayObject
      self.vertexArrayObject (fun vao => { vao with buffers := some self.vertexBuffer })

/-- Both `setAttachments` of lines 153-154, applied to live objects. -/
def attached (self : CompositePass) (r : FrameGraphPassResources) : FrameGraphPassResources :=
  (r.modifyRenderTarget self.target
      (fun t => t.setAttachments [RenderTargetAttachment.texture self.screenColor]
        (RenderTargetAttachment.texture self.screenDepth))).modifyRenderTarget
    self.blitTarget
    (fun t => t.setAttachments [RenderTargetAttachment.texture self.backgroundColor]
      (RenderTargetAttachment.texture self.deferredDepth))

/-- The live objects after both `setAttachments` (lines 153-154). -/
def afterAttach (self : CompositePass) (r : FrameGraphPassResources) : FrameGraphPassResources :=
  attached self (afterUpload self r)

/-- Whether `rt.isComplete()` holds for the target behind a handle. -/
def completeAt (r : FrameGraphPassResources) (h : FrameGraphResource) : Bool :=
  match r.renderTarget h with
  | some t => t.isComplete
  | none => false

/-- Whether both assertions of lines 156-157 hold. -/
def assertsHold (self : CompositePass) (r : FrameGraphPassResources) : Bool :=
  completeAt (afterAttach self r) self.target && completeAt (afterAttach self r) self.blitTarget

/-- The live objects once the command buffer holds `c` in state `st`
(lines 196-200). -/
def afterRecord (self : CompositePass) (r : FrameGraphPassResources) (st : CommandBufferState)
    (c : List Command) : FrameGraphPassResources :=
  (afterAttach self r).set self.commandBuffer (RenderObject.commandBuffer ⟨st, c⟩)

/-- The live objects at the end of an `execute` that submitted the commands `c`:
the attachments of both targets have been cleared (lines 202-203). -/
def afterFinish (self : CompositePass) (r : FrameGraphPassResources) (c : List Command) :
    FrameGraphPassResources :=
  ((afterRecord self r CommandBufferState.Submitted c).modifyRenderTarget
      self.blitTarget RenderTarget.clearAttachments).modifyRenderTarget
    self.target RenderTarget.clearAttachments

/-- The first render queue after the submission of the buffer holding `c`. -/
def afterSubmit (self : CompositePass) (q : CommandQueue) (c : List Command) : CommandQueue :=
  { q with submissions := q.submissions ++ [[(self.commandBuffer, c)]] }

end CompositePass


/-- The handles known after a list of calls: those known before and those the
calls returned. -/
def knownAfter (known : List FrameGraphResource) (calls : List BuilderCall) :
    List FrameGraphResource :=
  known ++ calls.filterMap BuilderCall.returned

/-- Whether a call is not a `read`, or is a `read` of a known handle. -/
def BuilderCall.readKnown (known : List FrameGraphResource) : BuilderCall → Bool
  | BuilderCall.read h => decide (h ∈ known)
  | _ => true

/-- Whether every `read` of a call log is on a handle that is known or was
returned by an earlier call of the log. -/
def readsRegistered : List FrameGraphResource → List BuilderCall → Bool
  | _, [] => true
  | known, c :: cs => c.readKnown known && readsRegistered (knownAfter known [c]) cs

/-- The pass object after `setup` has run on it in consecutive frames, each
frame with its own builder. -/
def CompositePass.afterFrames (self : CompositePass) : List FrameGraphBuilder → CompositePass
  | [] => self
  | b :: bs => CompositePass.afterFrames (self.setup b).self bs

/-- The handles a pass carries over from earlier frames: the vertex buffer and
the vertex array object when the guard of line 45 finds the vertex buffer
assigned, the blend pipeline when the guard of line 62 finds it assigned. -/
def CompositePass.persistedHandles (self : CompositePass) : List FrameGraphResource :=
  (if self.vertexBuffer.assigned then [self.vertexBuffer, self.vertexArrayObject] else [])
  ++ (if self.blendPipeline.assigned then [self.blendPipeline] else [])

/-- A handle held by the pass as a persisted member was created for that
member, and persisted, by a call of the given (earlier) log. -/
def CompositePass.PersistedEarlier (self : CompositePass) (log : List BuilderCall)
    (h : FrameGraphResource) : Prop :=
  BuilderCall.persist h ∈ log ∧
  ((self.vertexBuffer.assigned = true ∧ h = self.vertexBuffer ∧
      ∃ d, BuilderCall.createVertexBuffer d h ∈ log) ∨
   (self.vertexBuffer.assigned = true ∧ h = self.vertexArrayObject ∧
      ∃ d, BuilderCall.createVertexArrayObject d h ∈ log) ∨
   (self.blendPipeline.assigned = true ∧ h = self.blendPipeline ∧
      ∃ d, BuilderCall.createRenderPipeline d h ∈ log))

/-- Every persisted member the pass holds was created for that member, and
persisted, by a call of the log. -/
def CompositePass.PersistedLogged (self : CompositePass) (log : List BuilderCall) : Prop :=
  (self.vertexBuffer.assigned = true →
    self.PersistedEarlier log self.vertexBuffer ∧
    self.PersistedEarlier log self.vertexArrayObject) ∧
  (self.blendPipeline.assigned = true → self.PersistedEarlier log self.blendPipeline)

/-- What is known about the persisted handles of a pass: an assigned handle
was returned by an earlier call. -/
def PersistedKnown (self : CompositePass) (known : List FrameGraphResource) : Prop :=
  (self.vertexBuffer.assigned = true →
    self.vertexBuffer ∈ known ∧ self.vertexArrayObject ∈ known) ∧
  (self.blendPipeline.assigned = true → self.blendPipeline ∈ known)


/-- The operations on the command buffer and on the queues. -/
def ExecOp.isBufferOp : ExecOp → Bool
  | ExecOp.bufferBegin _ => true
  | ExecOp.bufferAdd _ _ => true
  | ExecOp.bufferEnd _ => true
  | ExecOp.submit _ _ _ => true
  | _ => false

def ExecOp.isUpload : ExecOp → Bool
  | ExecOp.upload _ _ _ => true
  | _ => false

def ExecOp.isSetBuffers : ExecOp → Bool
  | ExecOp.setBuffers _ _ => true
  | _ => false

def ExecOp.isConstruct : ExecOp → Bool
  | ExecOp.construct _ => true
  | _ => false

/-- The effect of a logged operation on the state machine of a command buffer
(section 4.5); operations on other objects leave it alone. -/
def CommandBuffer.step (cb : CommandBuffer) : ExecOp → Except FrameGraphError CommandBuffer
  | ExecOp.bufferBegin _ => cb.begin
  | ExecOp.bufferAdd _ cmds => cb.add cmds
  | ExecOp.bufferEnd _ => cb.end_
  | ExecOp.submit _ _ _ => cb.submitted
  | _ => Except.ok cb

/-- The states a command buffer goes through along a list of operations, up to
the first rejected one. -/
def CommandBuffer.statesAlong : CommandBuffer → List ExecOp → List CommandBufferState
  | _, [] => []
  | cb, op :: ops =>
    match cb.step op with
    | Except.ok cb1 => cb1.state :: CommandBuffer.statesAlong cb1 ops
    | Except.error _ => []

/-- The operations of an `execute` up to the sealing of the command buffer. -/
def CompositePass.body (self : CompositePass) (r : FrameGraphPassResources) : List ExecOp :=
  CompositePass.getOps self ++ CompositePass.uploadOps self ++ CompositePass.attachOps self
    ++ CompositePass.recordOps self r


/-- The dependency edges one `setup` adds to its builder. -/
def CompositePass.setupEdgesAdded (self : CompositePass) (builder : FrameGraphBuilder) :
    List DependencyEdge :=
  (self.setup builder).builder.edges.drop builder.edges.length


/-- A frame of two passes: the composite pass (pass 0, set up on
`sampleBuilder`) and a producer registered after it (pass 1) that writes the
texture behind the "deferred color" slot. -/
def sampleFrameEdges : List DependencyEdge :=
  ((CompositePass.fresh sampleMesh).setup sampleBuilder).builder.edges
    ++ [⟨1, ⟨2, true⟩, EdgeMode.Write⟩]

/-- A driver loader that knows every name and hands out physics drivers. -/
def sampleDriverLoad (name : String) : Except String (Option Driver) :=
  Except.ok (some ⟨name, true⟩)

/-- Whether the live object behind a registered handle is what its descriptor
asks for. -/
def FrameGraphPassResources.matchesAllocation (r : FrameGraphPassResources)
    (p : FrameGraphResource × Allocation) : Bool :=
  match r.objects p.1 with
  | some o => p.2.describes o
  | none => false

open CompositePass FrameGraphBuilder FrameGraphPassResources

/-! ## What one `setup` does -/

set_option maxHeartbeats 1600000 in
/-- The full account of one `setup`: the error, the call log, the edges and the
members that stay. -/
theorem setup_account (self : CompositePass) (b : FrameGraphBuilder) :
    ((self.setup b).error = none ∨ (self.setup b).error = some FrameGraphError.UnboundSlot) ∧
    ((self.setup b).error = none ↔ ∀ s ∈ slotOrder, (b.slotBinding s).isSome = true) ∧
    (self.setup b).builder.calls
      = b.calls ++ callScript self (self.setup b).self b (self.setup b).error.isNone ∧
    (self.setup b).builder.edges
      = b.edges ++ (callScript self (self.setup b).self b (self.setup b).error.isNone).filterMap
          (BuilderCall.edge b.currentPass) ∧
    (self.setup b).self.vertexBuffer
      = (if self.vertexBuffer.assigned then self.vertexBuffer
         else ⟨b.resourceCounter + 2, true⟩) ∧
    (self.setup b).self.vertexArrayObject
      = (if self.vertexBuffer.assigned then self.vertexArrayObject
         else ⟨b.resourceCounter + 3, true⟩) ∧
    (self.setup b).self.blendPipeline
      = (if self.blendPipeline.assigned then self.blendPipeline
         else ⟨b.resourceCounter + (if self.vertexBuffer.assigned then 2 else 4), true⟩) ∧
    (self.setup b).self.target = ⟨b.resourceCounter, true⟩ ∧
    (self.setup b).self.blitTarget = ⟨b.resourceCounter + 1, true⟩ ∧
    (self.setup b).builder.allocationOf ⟨b.resourceCounter, true⟩
      = some (Allocation.renderTarget (CompositePass.rdesc b)) ∧
    (self.setup b).builder.allocationOf ⟨b.resourceCounter + 1, true⟩
      = some (Allocation.renderTarget (CompositePass.rdesc b)) ∧
    (self.setup b).builder.currentPass = b.currentPass ∧
    (self.setup b).self.mesh = self.mesh ∧
    (self.setup b).self.quadAllocated = self.quadAllocated ∧
    ((self.setup b).error = none →
      b.slotBinding FrameGraphSlot.SLOT_SCREEN_COLOR = some (self.setup b).self.screenColor ∧
      b.slotBinding FrameGraphSlot.SLOT_SCREEN_DEPTH = some (self.setup b).self.screenDepth ∧
      b.slotBinding FrameGraphSlot.SLOT_DEFERRED_COLOR = some (self.setup b).self.deferredColor ∧
      b.slotBinding FrameGraphSlot.SLOT_DEFERRED_DEPTH = some (self.setup b).self.deferredDepth ∧
      b.slotBinding FrameGraphSlot.SLOT_FORWARD_COLOR = some (self.setup b).self.forwardColor ∧
      b.slotBinding FrameGraphSlot.SLOT_FORWARD_DEPTH = some (self.setup b).self.forwardDepth ∧
      b.slotBinding FrameGraphSlot.SLOT_BACKGROUND_COLOR
        = some (self.setup b).self.backgroundColor) := by
  rcases hv : self.vertexBuffer.assigned with _ | _ <;>
  rcases hp : self.blendPipeline.assigned with _ | _ <;>
  (rcases h1 : lookupSlot b.slots FrameGraphSlot.SLOT_SCREEN_COLOR with _ | v1
   · (simp [setup, setupGeometry, setupPipeline, setupSlots, setupEdges, callScript, lookups,
       slotOrder, createRenderTarget, createVertexBuffer, createVertexArrayObject,
       createRenderPipeline, createRenderPass, createCommandBuffer, createResource,
       FrameGraphBuilder.read, FrameGraphBuilder.write, FrameGraphBuilder.persist, getSlot,
       slotBinding, BuilderCall.edge, allocationOf, CompositePass.rdesc, CompositePass.pdesc,
       hv, hp, h1]; omega)
   rcases h2 : lookupSlot b.slots FrameGraphSlot.SLOT_SCREEN_DEPTH with _ | v2
   · (simp [setup, setupGeometry, setupPipeline, setupSlots, setupEdges, callScript, lookups,
       slotOrder, createRenderTarget, createVertexBuffer, createVertexArrayObject,
       createRenderPipeline, createRenderPass, createCommandBuffer, createResource,
       FrameGraphBuilder.read, FrameGraphBuilder.write, FrameGraphBuilder.persist, getSlot,
       slotBinding, BuilderCall.edge, allocationOf, CompositePass.rdesc, CompositePass.pdesc,
       hv, hp, h1, h2]; omega)
   rcases h3 : lookupSlot b.slots FrameGraphSlot.SLOT_DEFERRED_COLOR with _ | v3
   · (simp [setup, setupGeometry, setupPipeline, setupSlots, setupEdges, callScript, lookups,
       slotOrder, createRenderTarget, createVertexBuffer, createVertexArrayObject,
       createRenderPipeline, createRenderPass, createCommandBuffer, createResource,
       FrameGraphBuilder.read, FrameGraphBuilder.write, FrameGraphBuilder.persist, getSlot,
       slotBinding, BuilderCall.edge, allocationOf, CompositePass.rdesc, CompositePass.pdesc,
       hv, hp, h1, h2, h3]; omega)
   rcases h4 : lookupSlot b.slots FrameGraphSlot.SLOT_DEFERRED_DEPTH with _ | v4
   · (simp [setup, setupGeometry, setupPipeline, setupSlots, setupEdges, callScript, lookups,
       slotOrder, createRenderTarget, createVertexBuffer, createVertexArrayObject,
       createRenderPipeline, createRenderPass, createCommandBuffer, createResource,
       FrameGraphBuilder.read, FrameGraphBuilder.write, FrameGraphBuilder.persist, getSlot,
       slotBinding, BuilderCall.edge, allocationOf, CompositePass.rdesc, CompositePass.pdesc,
       hv, hp, h1, h2, h3, h4]; omega)
   rcases h5 : lookupSlot b.slots FrameGraphSlot.SLOT_FORWARD_COLOR with _ | v5
   · (simp [setup, setupGeometry, setupPipeline, setupSlots, setupEdges, callScript, lookups,
       slotOrder, createRenderTarget, createVertexBuffer, createVertexArrayObject,
       createRenderPipeline, createRenderPass, createCommandBuffer, createResource,
       FrameGraphBuilder.read, FrameGraphBuilder.write, FrameGraphBuilder.persist, getSlot,
       slotBinding, BuilderCall.edge, allocationOf, CompositePass.rdesc, CompositePass.pdesc,
       hv, hp, h1, h2, h3, h4, h5]; omega)
   rcases h6 : lookupSlot b.slots FrameGraphSlot.SLOT_FORWARD_DEPTH with _ | v6
   · (simp [setup, setupGeometry, setupPipeline, setupSlots, setupEdges, callScript, lookups,
       slotOrder, createRenderTarget, createVertexBuffer, createVertexArrayObject,
       createRenderPipeline, createRenderPass, createCommandBuffer, createResource,
       FrameGraphBuilder.read, FrameGraphBuilder.write, FrameGraphBuilder.persist, getSlot,
       slotBinding, BuilderCall.edge, allocationOf, CompositePass.rdesc, CompositePass.pdesc,
       hv, hp, h1, h2, h3, h4, h5, h6]; omega)
   rcases h7 : lookupSlot b.slots FrameGraphSlot.SLOT_BACKGROUND_COLOR with _ | v7
   · (simp [setup, setupGeometry, setupPipeline, setupSlots, setupEdges, callScript, lookups,
       slotOrder, createRenderTarget, createVertexBuffer, createVertexArrayObject,
       createRenderPipeline, createRenderPass, createCommandBuffer, createResource,
       FrameGraphBuilder.read, FrameGraphBuilder.write, FrameGraphBuilder.persist, getSlot,
       slotBinding, BuilderCall.edge, allocationOf, CompositePass.rdesc, CompositePass.pdesc,
       hv, hp, h1, h2, h3, h4, h5, h6, h7]; omega)
   · (simp [setup, setupGeometry, setupPipeline, setupSlots, setupEdges, callScript, lookups,
       slotOrder, createRenderTarget, createVertexBuffer, createVertexArrayObject,
       createRenderPipeline, createRenderPass, createCommandBuffer, createResource,
       FrameGraphBuilder.read, FrameGraphBuilder.write, FrameGraphBuilder.persist, getSlot,
       slotBinding, BuilderCall.edge, allocationOf, CompositePass.rdesc, CompositePass.pdesc,
       hv, hp, h1, h2, h3, h4, h5, h6, h7]; omega))


/-! ## Consequences for one `setup` -/

theorem lookups_isGetSlot (b : FrameGraphBuilder) (l : List FrameGraphSlot) :
    ∀ c ∈ b.lookups l, c.isGetSlot = true := by
  induction l with
  | nil => simp [lookups]
  | cons s ss ih =>
    intro c hc
    simp only [lookups, List.mem_cons] at hc
    rcases hc with rfl | hc
    · rfl
    · split at hc
      · exact ih c hc
      · simp at hc

theorem countP_lookups (b : FrameGraphBuilder) (l : List FrameGraphSlot)
    (p : BuilderCall → Bool) (hp : ∀ c, c.isGetSlot = true → p c = false) :
    (b.lookups l).countP p = 0 := by
  rw [List.countP_eq_zero]
  intro c hc
  simp [hp c (lookups_isGetSlot b l c hc)]

theorem setupCalls_eq (self : CompositePass) (b : FrameGraphBuilder) :
    self.setupCalls b = callScript self (self.setup b).self b (self.setup b).error.isNone := by
  unfold setupCalls
  rw [(setup_account self b).2.2.1]
  simp

theorem isGetSlot_cases (p : BuilderCall → Bool)
    (h : ∀ s r, p (BuilderCall.getSlot s r) = false) :
    ∀ c : BuilderCall, c.isGetSlot = true → p c = false := by
  intro c hc
  cases c <;> simp [BuilderCall.isGetSlot] at hc
  exact h _ _

/-- C1: `setup` creates its persisted resources idempotently.  When the vertex
buffer, the vertex array object and the blend pipeline are already assigned, a
further `setup` makes no `createVertexBuffer`, `createVertexArrayObject` or
`createRenderPipeline` call, leaves the three handles as they were and still
calls `persist` on each of them; when the three are unassigned, it creates each
of them exactly once and stores the created handles. -/
theorem setup_persisted_resources_idempotent (self : CompositePass)
    (builder : FrameGraphBuilder) :
    (self.vertexBuffer.assigned = true → self.vertexArrayObject.assigned = true →
      self.blendPipeline.assigned = true →
        (self.setupCalls builder).countP BuilderCall.isCreateVertexBuffer = 0 ∧
        (self.setupCalls builder).countP BuilderCall.isCreateVertexArrayObject = 0 ∧
        (self.setupCalls builder).countP BuilderCall.isCreateRenderPipeline = 0 ∧
        (self.setup builder).self.vertexBuffer = self.vertexBuffer ∧
        (self.setup builder).self.vertexArrayObject = self.vertexArrayObject ∧
        (self.setup builder).self.blendPipeline = self.blendPipeline ∧
        BuilderCall.persist self.vertexBuffer ∈ self.setupCalls builder ∧
        BuilderCall.persist self.vertexArrayObject ∈ self.setupCalls builder ∧
        BuilderCall.persist self.blendPipeline ∈ self.setupCalls builder) ∧
    (self.vertexBuffer.assigned = false → self.vertexArrayObject.assigned = false →
      self.blendPipeline.assigned = false →
        (self.setupCalls builder).countP BuilderCall.isCreateVertexBuffer = 1 ∧
        (self.setupCalls builder).countP BuilderCall.isCreateVertexArrayObject = 1 ∧
        (self.setupCalls builder).countP BuilderCall.isCreateRenderPipeline = 1 ∧
        BuilderCall.createVertexBuffer
            { size := self.mesh.vertices.length * self.mesh.vertexLayout.getSize }
            (self.setup builder).self.vertexBuffer ∈ self.setupCalls builder ∧
        BuilderCall.createVertexArrayObject { vertexLayout := self.mesh.vertexLayout }
            (self.setup builder).self.vertexArrayObject ∈ self.setupCalls builder ∧
        BuilderCall.createRenderPipeline self.pdesc (self.setup builder).self.blendPipeline
            ∈ self.setupCalls builder ∧
        (self.setup builder).self.vertexBuffer.assigned = true ∧
        (self.setup builder).self.vertexArrayObject.assigned = true ∧
        (self.setup builder).self.blendPipeline.assigned = true) := by
  have hacc := setup_account self builder
  obtain ⟨-, -, -, -, hvb, hvao, hbp, -⟩ := hacc
  have hL1 := countP_lookups builder slotOrder BuilderCall.isCreateVertexBuffer
    (isGetSlot_cases _ (fun _ _ => rfl))
  have hL2 := countP_lookups builder slotOrder BuilderCall.isCreateVertexArrayObject
    (isGetSlot_cases _ (fun _ _ => rfl))
  have hL3 := countP_lookups builder slotOrder BuilderCall.isCreateRenderPipeline
    (isGetSlot_cases _ (fun _ _ => rfl))
  constructor
  · intro h1 h2 h3
    simp only [h1, h3, if_true, Bool.false_eq_true, if_false] at hvb hvao hbp
    rw [setupCalls_eq]
    cases (self.setup builder).error.isNone <;>
      simp [callScript, h1, h3, hvb, hvao, hbp, List.countP_append, List.countP_cons,
        hL1, hL2, hL3, BuilderCall.isCreateVertexBuffer,
        BuilderCall.isCreateVertexArrayObject, BuilderCall.isCreateRenderPipeline]
  · intro h1 h2 h3
    simp only [h1, h3, if_true, Bool.false_eq_true, if_false] at hvb hvao hbp
    rw [setupCalls_eq]
    cases (self.setup builder).error.isNone <;>
      simp [callScript, h1, h3, hvb, hvao, hbp, List.countP_append, List.countP_cons,
        hL1, hL2, hL3, BuilderCall.isCreateVertexBuffer,
        BuilderCall.isCreateVertexArrayObject, BuilderCall.isCreateRenderPipeline]

/-- C1 at a concrete input: the second setup of `samplePass` (all three handles
assigned) and the first setup of a fresh pass (all three unassigned). -/
theorem setup_persisted_resources_idempotent_witness :
    ((samplePass.setupCalls sampleBuilderNext).countP BuilderCall.isCreateVertexBuffer = 0 ∧
      (samplePass.setupCalls sampleBuilderNext).countP BuilderCall.isCreateVertexArrayObject = 0 ∧
      (samplePass.setupCalls sampleBuilderNext).countP BuilderCall.isCreateRenderPipeline = 0 ∧
      (samplePass.setup sampleBuilderNext).self.vertexBuffer = samplePass.vertexBuffer ∧
      (samplePass.setup sampleBuilderNext).self.vertexArrayObject = samplePass.vertexArrayObject ∧
      (samplePass.setup sampleBuilderNext).self.blendPipeline = samplePass.blendPipeline ∧
      BuilderCall.persist samplePass.vertexBuffer ∈ samplePass.setupCalls sampleBuilderNext ∧
      BuilderCall.persist samplePass.vertexArrayObject ∈ samplePass.setupCalls sampleBuilderNext ∧
      BuilderCall.persist samplePass.blendPipeline ∈ samplePass.setupCalls sampleBuilderNext) ∧
    ((CompositePass.fresh sampleMesh).setupCalls sampleBuilder).countP
      BuilderCall.isCreateVertexBuffer = 1 :=
  ⟨(setup_persisted_resources_idempotent samplePass sampleBuilderNext).1 rfl rfl rfl,
   ((setup_persisted_resources_idempotent (CompositePass.fresh sampleMesh) sampleBuilder).2
      rfl rfl rfl).1⟩


theorem mem_knownAfter (known : List FrameGraphResource) (calls : List BuilderCall)
    (h : FrameGraphResource) :
    h ∈ knownAfter known calls ↔ h ∈ known ∨ ∃ c ∈ calls, c.returned = some h := by
  simp [knownAfter, List.mem_filterMap]

theorem knownAfter_append (known : List FrameGraphResource) (l1 l2 : List BuilderCall) :
    knownAfter known (l1 ++ l2) = knownAfter (knownAfter known l1) l2 := by
  simp [knownAfter, List.filterMap_append]

theorem readsRegistered_cons (known : List FrameGraphResource) (c : BuilderCall)
    (cs : List BuilderCall) :
    readsRegistered known (c :: cs)
      = (c.readKnown known && readsRegistered (knownAfter known [c]) cs) := rfl

theorem readsRegistered_append (l1 l2 : List BuilderCall) :
    ∀ known, readsRegistered known (l1 ++ l2)
      = (readsRegistered known l1 && readsRegistered (knownAfter known l1) l2) := by
  induction l1 with
  | nil => intro known; simp [readsRegistered, knownAfter]
  | cons c cs ih =>
    intro known
    rw [List.cons_append, readsRegistered_cons, readsRegistered_cons, ih, Bool.and_assoc,
      ← knownAfter_append]
    rfl

theorem readsRegistered_mono (l : List BuilderCall) :
    ∀ k1 k2 : List FrameGraphResource, (∀ h ∈ k1, h ∈ k2) →
      readsRegistered k1 l = true → readsRegistered k2 l = true := by
  induction l with
  | nil => intro _ _ _ _; rfl
  | cons c cs ih =>
    intro k1 k2 hsub h
    simp only [readsRegistered_cons, Bool.and_eq_true] at h ⊢
    refine ⟨?_, ih _ _ ?_ h.2⟩
    · cases c <;> simp_all [BuilderCall.readKnown]
    · intro x hx
      rw [mem_knownAfter] at hx ⊢
      rcases hx with hx | hx
      · exact Or.inl (hsub x hx)
      · exact Or.inr hx

theorem readsRegistered_sound (l : List BuilderCall) :
    ∀ known, readsRegistered known l = true →
      ∀ pre post h, l = pre ++ BuilderCall.read h :: post →
        h ∈ known ∨ ∃ c ∈ pre, c.returned = some h := by
  induction l with
  | nil => intro known _ pre post h hl; simp at hl
  | cons c cs ih =>
    intro known hreg pre post h hl
    simp only [readsRegistered_cons, Bool.and_eq_true] at hreg
    cases pre with
    | nil =>
      simp only [List.nil_append, List.cons.injEq] at hl
      obtain ⟨rfl, -⟩ := hl
      left
      simpa [BuilderCall.readKnown] using hreg.1
    | cons p ps =>
      simp only [List.cons_append, List.cons.injEq] at hl
      obtain ⟨rfl, hl⟩ := hl
      rcases ih _ hreg.2 ps post h hl with hk | ⟨d, hd, hr⟩
      · rw [mem_knownAfter] at hk
        rcases hk with hk | ⟨d, hd, hr⟩
        · exact Or.inl hk
        · simp only [List.mem_singleton] at hd
          subst hd
          exact Or.inr ⟨d, List.mem_cons_self _ _, hr⟩
      · exact Or.inr ⟨d, List.mem_cons_of_mem _ hd, hr⟩

theorem readsRegistered_lookups (b : FrameGraphBuilder) (l : List FrameGraphSlot) :
    ∀ known, readsRegistered known (b.lookups l) = true := by
  induction l with
  | nil => intro known; rfl
  | cons s ss ih =>
    intro known
    simp only [lookups, readsRegistered_cons, BuilderCall.readKnown, Bool.true_and]
    split
    · exact ih _
    · rfl

theorem lookups_of_bound (self : CompositePass) (b : FrameGraphBuilder)
    (h : (self.setup b).error = none) :
    b.lookups slotOrder
      = [ BuilderCall.getSlot FrameGraphSlot.SLOT_SCREEN_COLOR
            (some (self.setup b).self.screenColor),
          BuilderCall.getSlot FrameGraphSlot.SLOT_SCREEN_DEPTH
            (some (self.setup b).self.screenDepth),
          BuilderCall.getSlot FrameGraphSlot.SLOT_DEFERRED_COLOR
            (some (self.setup b).self.deferredColor),
          BuilderCall.getSlot FrameGraphSlot.SLOT_DEFERRED_DEPTH
            (some (self.setup b).self.deferredDepth),
          BuilderCall.getSlot FrameGraphSlot.SLOT_FORWARD_COLOR
            (some (self.setup b).self.forwardColor),
          BuilderCall.getSlot FrameGraphSlot.SLOT_FORWARD_DEPTH
            (some (self.setup b).self.forwardDepth),
          BuilderCall.getSlot FrameGraphSlot.SLOT_BACKGROUND_COLOR
            (some (self.setup b).self.backgroundColor) ] := by
  obtain ⟨e1, e2, e3, e4, e5, e6, e7⟩ := (setup_account self b).2.2.2.2.2.2.2.2.2.2.2.2.2.2 h
  simp [lookups, slotOrder, e1, e2, e3, e4, e5, e6, e7]

/-- One `setup` keeps the reads registered and the persisted handles known. -/
theorem setup_readsRegistered (self : CompositePass) (b : FrameGraphBuilder)
    (known : List FrameGraphResource) (hinv : PersistedKnown self known) :
    readsRegistered known (self.setupCalls b) = true ∧
    PersistedKnown (self.setup b).self (knownAfter known (self.setupCalls b)) := by
  obtain ⟨-, -, -, -, hvb, hvao, hbp, -⟩ := setup_account self b
  obtain ⟨hi1, hi2⟩ := hinv
  rw [setupCalls_eq]
  constructor
  · cases hE : (self.setup b).error with
    | none =>
      have hl := lookups_of_bound self b hE
      rcases hv : self.vertexBuffer.assigned with _ | _ <;>
      rcases hp : self.blendPipeline.assigned with _ | _ <;>
        simp [callScript, hl, readsRegistered_cons, readsRegistered, BuilderCall.readKnown,
          knownAfter, BuilderCall.returned, hv, hp, hvb, hvao, hbp, hi1, hi2]
    | some e =>
      simp only [Option.isNone_some, callScript, Bool.false_eq_true, if_false, List.append_nil]
      rw [readsRegistered_append, readsRegistered_lookups, Bool.and_true]
      rcases hv : self.vertexBuffer.assigned with _ | _ <;>
      rcases hp : self.blendPipeline.assigned with _ | _ <;>
        simp [readsRegistered_cons, readsRegistered, BuilderCall.readKnown,
          knownAfter, BuilderCall.returned, hv, hp, hvb, hvao, hbp, hi1, hi2]
  · constructor
    · intro _
      rw [mem_knownAfter, mem_knownAfter]
      rcases hv : self.vertexBuffer.assigned with _ | _
      · exact ⟨Or.inr ⟨BuilderCall.createVertexBuffer
              { size := self.mesh.vertices.length * self.mesh.vertexLayout.getSize }
              (self.setup b).self.vertexBuffer, by simp [callScript, hv], rfl⟩,
          Or.inr ⟨BuilderCall.createVertexArrayObject { vertexLayout := self.mesh.vertexLayout }
              (self.setup b).self.vertexArrayObject, by simp [callScript, hv], rfl⟩⟩
      · rw [hvb, hvao]
        simp only [hv, if_true]
        exact ⟨Or.inl (hi1 hv).1, Or.inl (hi1 hv).2⟩
    · intro _
      rw [mem_knownAfter]
      rcases hp : self.blendPipeline.assigned with _ | _
      · exact Or.inr ⟨BuilderCall.createRenderPipeline self.pdesc
          (self.setup b).self.blendPipeline, by simp [callScript, hp], rfl⟩
      · rw [hbp]
        simp only [hp, if_true]
        exact Or.inl (hi2 hp)

/-- A persisted member found in a log is found in every longer log, as long as
the member and the guards stay. -/
theorem PersistedEarlier_append (self after : CompositePass) (log more : List BuilderCall)
    (h : FrameGraphResource)
    (hvb : self.vertexBuffer.assigned = true →
      after.vertexBuffer = self.vertexBuffer ∧ after.vertexArrayObject = self.vertexArrayObject)
    (hbp : self.blendPipeline.assigned = true → after.blendPipeline = self.blendPipeline)
    (hp : self.PersistedEarlier log h) : after.PersistedEarlier (log ++ more) h := by
  obtain ⟨hpers, hc⟩ := hp
  refine ⟨List.mem_append_left _ hpers, ?_⟩
  rcases hc with ⟨ha, rfl, d, hd⟩ | ⟨ha, rfl, d, hd⟩ | ⟨ha, rfl, d, hd⟩
  · exact Or.inl ⟨by rw [(hvb ha).1]; exact ha, (hvb ha).1.symm, d,
      List.mem_append_left _ hd⟩
  · exact Or.inr (Or.inl ⟨by rw [(hvb ha).1]; exact ha, (hvb ha).2.symm, d,
      List.mem_append_left _ hd⟩)
  · exact Or.inr (Or.inr ⟨by rw [hbp ha]; exact ha, (hbp ha).symm, d,
      List.mem_append_left _ hd⟩)

/-- One `setup` keeps every persisted member logged: an assigned member stays
and was logged before, an unassigned one is created and persisted now. -/
theorem setup_persistedLogged (self : CompositePass) (b : FrameGraphBuilder)
    (log : List BuilderCall) (hinv : self.PersistedLogged log) :
    (self.setup b).self.PersistedLogged (log ++ self.setupCalls b) := by
  obtain ⟨-, -, -, -, hvb, hvao, hbp, -⟩ := setup_account self b
  obtain ⟨hi1, hi2⟩ := hinv
  have hkeepV : self.vertexBuffer.assigned = true →
      (self.setup b).self.vertexBuffer = self.vertexBuffer ∧
      (self.setup b).self.vertexArrayObject = self.vertexArrayObject := by
    intro ha
    rw [hvb, hvao]
    simp [ha]
  have hkeepP : self.blendPipeline.assigned = true →
      (self.setup b).self.blendPipeline = self.blendPipeline := by
    intro ha
    rw [hbp]
    simp [ha]
  have hnewV : (self.setup b).self.vertexBuffer.assigned = true := by
    rw [hvb]
    cases ha : self.vertexBuffer.assigned <;> simp [ha]
  have hnewP : (self.setup b).self.blendPipeline.assigned = true := by
    rw [hbp]
    cases ha : self.blendPipeline.assigned <;> simp [ha]
  constructor
  · intro _
    rcases hv : self.vertexBuffer.assigned with _ | _
    · rw [setupCalls_eq]
      exact ⟨⟨List.mem_append_right _ (by simp [callScript]),
          Or.inl ⟨hnewV, rfl, { size := self.mesh.vertices.length * self.mesh.vertexLayout.getSize },
            List.mem_append_right _ (by simp [callScript, hv])⟩⟩,
        ⟨List.mem_append_right _ (by simp [callScript]),
          Or.inr (Or.inl ⟨hnewV, rfl, { vertexLayout := self.mesh.vertexLayout },
            List.mem_append_right _ (by simp [callScript, hv])⟩)⟩⟩
    · obtain ⟨e1, e2⟩ := hkeepV hv
      rw [e1, e2]
      exact ⟨PersistedEarlier_append self _ log _ _ hkeepV hkeepP (hi1 hv).1,
        PersistedEarlier_append self _ log _ _ hkeepV hkeepP (hi1 hv).2⟩
  · intro _
    rcases hp : self.blendPipeline.assigned with _ | _
    · rw [setupCalls_eq]
      exact ⟨List.mem_append_right _ (by simp [callScript]),
        Or.inr (Or.inr ⟨hnewP, rfl, self.pdesc,
          List.mem_append_right _ (by simp [callScript, hp])⟩)⟩
    · rw [hkeepP hp]
      exact PersistedEarlier_append self _ log _ _ hkeepV hkeepP (hi2 hp)

/-- Over consecutive frames the persisted members stay logged. -/
theorem afterFrames_persistedLogged (frames : List FrameGraphBuilder) :
    ∀ (self : CompositePass) (log : List BuilderCall), self.PersistedLogged log →
      (self.afterFrames frames).PersistedLogged (log ++ self.setupFrames frames) := by
  induction frames with
  | nil =>
    intro self log hinv
    simpa [afterFrames, setupFrames] using hinv
  | cons b bs ih =>
    intro self log hinv
    have h := ih _ _ (setup_persistedLogged self b log hinv)
    simpa [afterFrames, setupFrames, List.append_assoc] using h

theorem persistedKnown_persistedHandles (self : CompositePass) :
    PersistedKnown self self.persistedHandles := by
  constructor
  · intro ha
    simp [persistedHandles, ha]
  · intro ha
    simp [persistedHandles, ha]

/-- C6: every read that `setup` records is on a handle that the builder handed
out before the read.  In any frame of any sequence of frames, starting from a
freshly constructed pass and with any builder in each frame, each `read h`
among the calls of that frame's `setup` either is preceded, among the calls of
the same `setup`, by a `create...` or `getSlot` call that returned `h`, or is a
read of a persisted member (`vertexBuffer`, `vertexArrayObject` or
`blendPipeline`, found assigned by the guards) that a `setup` of an earlier
frame created for that member and persisted.  A read of a handle that is not
one of the persisted members held at entry (so every read of `target`,
`blitTarget`, `pass` and of a slot handle) is covered by the same `setup`. -/
theorem setup_reads_follow_registration (mesh : Mesh) (earlier : List FrameGraphBuilder)
    (builder : FrameGraphBuilder) (pre post : List BuilderCall) (h : FrameGraphResource)
    (hlog : ((CompositePass.fresh mesh).afterFrames earlier).setupCalls builder
      = pre ++ BuilderCall.read h :: post) :
    ((∃ c ∈ pre, c.returned = some h) ∨
      ((CompositePass.fresh mesh).afterFrames earlier).PersistedEarlier
        ((CompositePass.fresh mesh).setupFrames earlier) h) ∧
    (h ∉ ((CompositePass.fresh mesh).afterFrames earlier).persistedHandles →
      ∃ c ∈ pre, c.returned = some h) := by
  have hfresh : (CompositePass.fresh mesh).PersistedLogged [] :=
    ⟨fun h => by simp [CompositePass.fresh, FrameGraphResource.unassigned] at h,
     fun h => by simp [CompositePass.fresh, FrameGraphResource.unassigned] at h⟩
  have hinv := afterFrames_persistedLogged earlier (CompositePass.fresh mesh) [] hfresh
  rw [List.nil_append] at hinv
  obtain ⟨hi1, hi2⟩ := hinv
  have hreg := (setup_readsRegistered ((CompositePass.fresh mesh).afterFrames earlier) builder
    _ (persistedKnown_persistedHandles _)).1
  have hsound := readsRegistered_sound _ _ hreg pre post h hlog
  refine ⟨?_, fun hnot => hsound.resolve_left hnot⟩
  rcases hsound with hk | hc
  · right
    simp only [persistedHandles, List.mem_append] at hk
    rcases hk with hk | hk
    · split at hk
      · rename_i ha
        simp only [List.mem_cons, List.mem_singleton, List.not_mem_nil, or_false] at hk
        rcases hk with rfl | rfl
        · exact (hi1 ha).1
        · exact (hi1 ha).2
      · cases hk
    · split at hk
      · rename_i ha
        simp only [List.mem_singleton] at hk
        subst hk
        exact hi2 ha
      · cases hk
  · exact Or.inl hc

/-- In the first frame of a pass every read is covered by the same `setup`. -/
theorem first_setup_reads_registered (mesh : Mesh) (builder : FrameGraphBuilder)
    (pre post : List BuilderCall) (h : FrameGraphResource)
    (hlog : (CompositePass.fresh mesh).setupCalls builder = pre ++ BuilderCall.read h :: post) :
    ∃ c ∈ pre, c.returned = some h := by
  have hreg := (setup_readsRegistered (CompositePass.fresh mesh) builder []
    ⟨fun h => by simp [CompositePass.fresh, FrameGraphResource.unassigned] at h,
     fun h => by simp [CompositePass.fresh, FrameGraphResource.unassigned] at h⟩).1
  rcases readsRegistered_sound _ _ hreg pre post h hlog with hk | hc
  · simp at hk
  · exact hc


/-! ## The resolver -/

/-- The resolver only appends to what is already placed, places every waiting
pass, and never places a pass before one of its dependencies that was still
waiting. -/
theorem resolveAux_spec (edges : List DependencyEdge) :
    ∀ (fuel : Nat) (remaining done order : List Nat),
      resolveAux edges fuel remaining done = Except.ok order →
      ∃ rest, order = done ++ rest ∧ rest.Perm remaining ∧
        rest.Pairwise (fun p q => dependsOn edges p q = false) := by
  intro fuel
  induction fuel with
  | zero =>
    intro remaining done order h
    simp only [resolveAux] at h
    split at h
    · rename_i hemp
      simp only [Except.ok.injEq] at h
      subst h
      refine ⟨[], by simp, ?_, List.Pairwise.nil⟩
      simp only [List.isEmpty_iff] at hemp
      rw [hemp]
    · cases h
  | succ n ih =>
    intro remaining done order h
    simp only [resolveAux] at h
    split at h
    · split at h
      · rename_i hemp
        simp only [Except.ok.injEq] at h
        subst h
        refine ⟨[], by simp, ?_, List.Pairwise.nil⟩
        simp only [List.isEmpty_iff] at hemp
        rw [hemp]
      · cases h
    · rename_i p hfind
      obtain ⟨rest, hrest, hperm, hpw⟩ := ih _ _ _ h
      have hp_mem : p ∈ remaining := List.mem_of_find?_eq_some hfind
      have hp_ready := List.find?_some hfind
      simp only [List.all_eq_true, Bool.not_eq_true'] at hp_ready
      refine ⟨p :: rest, by simp [hrest], ?_, ?_⟩
      · exact (List.Perm.cons p hperm).trans (List.perm_cons_erase hp_mem).symm
      · rw [List.pairwise_cons]
        refine ⟨fun q hq => hp_ready q ?_, hpw⟩
        exact List.mem_of_mem_erase (hperm.subset hq)

theorem pairwise_indexOf_lt (R : Nat → Nat → Prop) :
    ∀ (l : List Nat), l.Pairwise R → ∀ a b, a ∈ l → b ∈ l → a ≠ b → ¬ R b a →
      l.indexOf a < l.indexOf b := by
  intro l
  induction l with
  | nil => intro _ a b ha; cases ha
  | cons x xs ih =>
    intro hpw a b ha hb hab hR
    rw [List.pairwise_cons] at hpw
    by_cases hax : a = x
    · subst hax
      have hbx : b ≠ a := fun h => hab h.symm
      rw [List.indexOf_cons_self, List.indexOf_cons_ne _ (Ne.symm hbx)]
      exact Nat.succ_pos _
    · have ha' : a ∈ xs := by
        rcases List.mem_cons.1 ha with h | h
        · exact absurd h hax
        · exact h
      by_cases hbx : b = x
      · subst hbx
        exact absurd (hpw.1 a ha') hR
      · have hb' : b ∈ xs := by
          rcases List.mem_cons.1 hb with h | h
          · exact absurd h hbx
          · exact h
        rw [List.indexOf_cons_ne _ (Ne.symm hax), List.indexOf_cons_ne _ (Ne.symm hbx)]
        exact Nat.succ_lt_succ (ih hpw.2 a b ha' hb' hab hR)

/-- A call of the script leaves its edge in the builder. -/
theorem mem_edges_of_call (before after : CompositePass) (b : FrameGraphBuilder)
    (completed : Bool) (c : BuilderCall) {e : DependencyEdge} {E : List DependencyEdge}
    (hc : c ∈ callScript before after b completed)
    (he : c.edge b.currentPass = some e) :
    e ∈ E ++ (callScript before after b completed).filterMap (BuilderCall.edge b.currentPass) :=
  List.mem_append_right _ (List.mem_filterMap.2 ⟨c, hc, he⟩)

/-- C2 (amended): the ordering invariant of the resolver holds between two
different passes.  For every frame the resolver accepts, the resolution is a
permutation of the passes, and for all passes `A ≠ B` of the frame and every
handle `H`, if `A` has a Write edge on `H` and `B` has a Read edge on `H`, then
`A` is placed strictly before `B`.  The edges `CompositePass.setup` records are
all edges of its own pass: a creation (Write) and a Read of `target`,
`blitTarget` and `pass`, and on a pass whose vertex buffer is unassigned a
Write and a Read of `vertexBuffer`. -/
theorem resolver_orders_distinct_passes :
    (∀ (passes : List Nat) (edges : List DependencyEdge) (order : List Nat),
      resolve passes edges = Except.ok order →
        order.Perm passes ∧
        ∀ (A B : Nat) (H : FrameGraphResource), A ≠ B → A ∈ passes → B ∈ passes →
          (⟨A, H, EdgeMode.Write⟩ : DependencyEdge) ∈ edges →
          (⟨B, H, EdgeMode.Read⟩ : DependencyEdge) ∈ edges →
            order.indexOf A < order.indexOf B) ∧
    (∀ (self : CompositePass) (builder : FrameGraphBuilder),
      (∀ e ∈ (self.setup builder).builder.edges.drop builder.edges.length,
        e.pass = builder.currentPass) ∧
      (∀ h ∈ [(self.setup builder).self.target, (self.setup builder).self.blitTarget,
              (self.setup builder).self.pass],
        (⟨builder.currentPass, h, EdgeMode.Write⟩ : DependencyEdge)
            ∈ (self.setup builder).builder.edges ∧
        (⟨builder.currentPass, h, EdgeMode.Read⟩ : DependencyEdge)
            ∈ (self.setup builder).builder.edges) ∧
      (self.vertexBuffer.assigned = false →
        (⟨builder.currentPass, (self.setup builder).self.vertexBuffer, EdgeMode.Write⟩ :
            DependencyEdge) ∈ (self.setup builder).builder.edges ∧
        (⟨builder.currentPass, (self.setup builder).self.vertexBuffer, EdgeMode.Read⟩ :
            DependencyEdge) ∈ (self.setup builder).builder.edges)) := by
  constructor
  · intro passes edges order hres
    obtain ⟨rest, hrest, hperm, hpw⟩ := resolveAux_spec edges _ _ _ _ hres
    simp only [List.nil_append] at hrest
    subst hrest
    refine ⟨hperm, ?_⟩
    intro A B H hAB hA hB hw hr
    apply pairwise_indexOf_lt _ _ hpw A B (hperm.symm.subset hA) (hperm.symm.subset hB) hAB
    simp only [dependsOn, Bool.not_eq_false, decide_eq_true_eq]
    exact ⟨hAB, ⟨A, H, EdgeMode.Write⟩, hw, rfl, rfl, hr⟩
  · intro self builder
    obtain ⟨-, -, -, hedges, -⟩ := setup_account self builder
    rw [hedges]
    refine ⟨?_, ?_, ?_⟩
    · intro e he
      simp only [List.drop_left, List.mem_filterMap] at he
      obtain ⟨c, -, hc⟩ := he
      cases c <;> simp [BuilderCall.edge] at hc <;> rw [← hc]
    · intro h hh
      simp only [List.mem_cons, List.mem_singleton, List.not_mem_nil, or_false] at hh
      rcases hh with rfl | rfl | rfl
      · exact ⟨mem_edges_of_call _ _ _ _ (BuilderCall.createRenderTarget (rdesc builder) _)
            (by simp [callScript]) rfl,
          mem_edges_of_call _ _ _ _ (BuilderCall.read _) (by simp [callScript]) rfl⟩
      · exact ⟨mem_edges_of_call _ _ _ _ (BuilderCall.createRenderTarget (rdesc builder) _)
            (by simp [callScript]) rfl,
          mem_edges_of_call _ _ _ _ (BuilderCall.read _) (by simp [callScript]) rfl⟩
      · exact ⟨mem_edges_of_call _ _ _ _ (BuilderCall.createRenderPass
              { numberOfColorAttachments := 1, hasDepthStencilAttachment := true } _)
            (by simp [callScript]) rfl,
          mem_edges_of_call _ _ _ _ (BuilderCall.read _) (by simp [callScript]) rfl⟩
    · intro hv
      exact ⟨mem_edges_of_call _ _ _ _ (BuilderCall.write _) (by simp [callScript, hv]) rfl,
        mem_edges_of_call _ _ _ _ (BuilderCall.read _) (by simp [callScript]) rfl⟩

/-! ## Live objects: what a mutation leaves alone -/

namespace FrameGraphPassResources

theorem renderTarget_modifyVertexBuffer (r : FrameGraphPassResources) (h k : FrameGraphResource)
    (f : VertexBuffer → VertexBuffer) :
    (r.modifyVertexBuffer h f).renderTarget k = r.renderTarget k := by
  unfold modifyVertexBuffer
  split
  · rename_i vb hvb
    unfold renderTarget set
    by_cases hk : k = h
    · subst hk; simp [hvb]
    · simp [hk]
  · rfl

theorem renderTarget_modifyVertexArrayObject (r : FrameGraphPassResources)
    (h k : FrameGraphResource) (f : VertexArrayObject → VertexArrayObject) :
    (r.modifyVertexArrayObject h f).renderTarget k = r.renderTarget k := by
  unfold modifyVertexArrayObject
  split
  · rename_i vb hvb
    unfold renderTarget set
    by_cases hk : k = h
    · subst hk; simp [hvb]
    · simp [hk]
  · rfl

theorem renderTarget_modifyRenderTarget (r : FrameGraphPassResources) (h k : FrameGraphResource)
    (f : RenderTarget → RenderTarget) :
    (r.modifyRenderTarget h f).renderTarget k
      = if k = h then (r.renderTarget h).map f else r.renderTarget k := by
  unfold modifyRenderTarget
  split
  · rename_i rt hrt
    unfold renderTarget set
    by_cases hk : k = h
    · subst hk; simp [hrt]
    · simp [hk]
  · rename_i hne
    by_cases hk : k = h
    · subst hk
      simp only [if_true]
      unfold renderTarget
      split
      · rename_i rt hrt
        exact absurd hrt (hne rt)
      · rfl
    · simp [hk]

theorem commandBuffer_modifyVertexBuffer (r : FrameGraphPassResources) (h k : FrameGraphResource)
    (f : VertexBuffer → VertexBuffer) :
    (r.modifyVertexBuffer h f).commandBuffer k = r.commandBuffer k := by
  unfold modifyVertexBuffer
  split
  · rename_i vb hvb
    unfold commandBuffer set
    by_cases hk : k = h
    · subst hk; simp [hvb]
    · simp [hk]
  · rfl

theorem commandBuffer_modifyVertexArrayObject (r : FrameGraphPassResources)
    (h k : FrameGraphResource) (f : VertexArrayObject → VertexArrayObject) :
    (r.modifyVertexArrayObject h f).commandBuffer k = r.commandBuffer k := by
  unfold modifyVertexArrayObject
  split
  · rename_i vb hvb
    unfold commandBuffer set
    by_cases hk : k = h
    · subst hk; simp [hvb]
    · simp [hk]
  · rfl

theorem commandBuffer_modifyRenderTarget (r : FrameGraphPassResources) (h k : FrameGraphResource)
    (f : RenderTarget → RenderTarget) :
    (r.modifyRenderTarget h f).commandBuffer k = r.commandBuffer k := by
  unfold modifyRenderTarget
  split
  · rename_i vb hvb
    unfold commandBuffer set
    by_cases hk : k = h
    · subst hk; simp [hvb]
    · simp [hk]
  · rfl

theorem commandBuffer_set_self (r : FrameGraphPassResources) (h : FrameGraphResource)
    (cb : CommandBuffer) :
    (r.set h (RenderObject.commandBuffer cb)).commandBuffer h = some cb := by
  simp [commandBuffer, set]

theorem renderTarget_set_commandBuffer (r : FrameGraphPassResources) (h k : FrameGraphResource)
    (cb : CommandBuffer) :
    (r.set h (RenderObject.commandBuffer cb)).renderTarget k
      = if k = h then none else r.renderTarget k := by
  unfold renderTarget set
  by_cases hk : k = h
  · subst hk; simp
  · simp [hk]

end FrameGraphPassResources


theorem targetSize_modifyRenderTarget (r : FrameGraphPassResources) (h k : FrameGraphResource)
    (f : RenderTarget → RenderTarget) (hf : ∀ t, (f t).desc = t.desc) :
    targetSize (r.modifyRenderTarget h f) k = targetSize r k := by
  unfold targetSize
  rw [renderTarget_modifyRenderTarget]
  by_cases hk : k = h
  · subst hk
    simp only [if_true]
    cases r.renderTarget k <;> simp [hf]
  · simp [hk]

theorem targetSize_modifyVertexBuffer (r : FrameGraphPassResources) (h k : FrameGraphResource)
    (f : VertexBuffer → VertexBuffer) :
    targetSize (r.modifyVertexBuffer h f) k = targetSize r k := by
  unfold targetSize
  rw [renderTarget_modifyVertexBuffer]

theorem targetSize_modifyVertexArrayObject (r : FrameGraphPassResources)
    (h k : FrameGraphResource) (f : VertexArrayObject → VertexArrayObject) :
    targetSize (r.modifyVertexArrayObject h f) k = targetSize r k := by
  unfold targetSize
  rw [renderTarget_modifyVertexArrayObject]

theorem commands_congr (self : CompositePass) (r r2 : FrameGraphPassResources)
    (h : ∀ k, targetSize r2 k = targetSize r k) : commands self r2 = commands self r := by
  simp [commands, h]


/-! ## The stages of `execute` -/

/-- The fourteen lookups succeed together, and then only extend the trace. -/
theorem resolveHandles_ok (self : CompositePass) (r : FrameGraphPassResources)
    (q1 q2 q3 : List CommandQueue) (tr : List ExecOp) (h : allResolve self r = true) :
    resolveHandles ⟨none, self, r, q1, q2, q3, tr⟩
      = ⟨none, self, r, q1, q2, q3, tr ++ getOps self⟩ := by
  simp only [allResolve, Bool.and_eq_true] at h
  obtain ⟨⟨⟨⟨⟨⟨⟨⟨⟨⟨⟨⟨⟨h1, h2⟩, h3⟩, h4⟩, h5⟩, h6⟩, h7⟩, h8⟩, h9⟩, h10⟩, h11⟩, h12⟩, h13⟩, h14⟩ := h
  simp [resolveHandles, ExecState.andThen, ExecState.get, ExecState.log, ExecState.throw, getOps,
    h1, h2, h3, h4, h5, h6, h7, h8, h9, h10, h11, h12, h13, h14]

/-- A failing lookup throws `UnresolvedHandle` after a prefix of the lookups. -/
theorem resolveHandles_fail (self : CompositePass) (r : FrameGraphPassResources)
    (q1 q2 q3 : List CommandQueue) (tr : List ExecOp) (h : allResolve self r = false) :
    ∃ n, resolveHandles ⟨none, self, r, q1, q2, q3, tr⟩
      = ⟨some FrameGraphError.UnresolvedHandle, self, r, q1, q2, q3,
          tr ++ (getOps self).take n⟩ := by
  rcases h1 : r.resolves self.target ObjectKind.RenderTarget with _ | _
  · exact ⟨1, by simp [resolveHandles, ExecState.andThen, ExecState.get, ExecState.log, ExecState.throw, getOps, h1]⟩
  rcases h2 : r.resolves self.blitTarget ObjectKind.RenderTarget with _ | _
  · exact ⟨2, by simp [resolveHandles, ExecState.andThen, ExecState.get, ExecState.log, ExecState.throw, getOps, h1, h2]⟩
  rcases h3 : r.resolves self.blendPipeline ObjectKind.RenderPipeline with _ | _
  · exact ⟨3, by simp [resolveHandles, ExecState.andThen, ExecState.get, ExecState.log, ExecState.throw, getOps, h1, h2, h3]⟩
  rcases h4 : r.resolves self.pass ObjectKind.RenderPass with _ | _
  · exact ⟨4, by simp [resolveHandles, ExecState.andThen, ExecState.get, ExecState.log, ExecState.throw, getOps, h1, h2, h3, h4]⟩
  rcases h5 : r.resolves self.vertexBuffer ObjectKind.VertexBuffer with _ | _
  · exact ⟨5, by simp [resolveHandles, ExecState.andThen, ExecState.get, ExecState.log, ExecState.throw, getOps, h1, h2, h3, h4, h5]⟩
  rcases h6 : r.resolves self.vertexArrayObject ObjectKind.VertexArrayObject with _ | _
  · exact ⟨6, by simp [resolveHandles, ExecState.andThen, ExecState.get, ExecState.log, ExecState.throw, getOps, h1, h2, h3, h4, h5, h6]⟩
  rcases h7 : r.resolves self.screenColor ObjectKind.TextureBuffer with _ | _
  · exact ⟨7, by simp [resolveHandles, ExecState.andThen, ExecState.get, ExecState.log, ExecState.throw, getOps, h1, h2, h3, h4, h5, h6, h7]⟩
  rcases h8 : r.resolves self.screenDepth ObjectKind.TextureBuffer with _ | _
  · exact ⟨8, by simp [resolveHandles, ExecState.andThen, ExecState.get, ExecState.log, ExecState.throw, getOps, h1, h2, h3, h4, h5, h6, h7, h8]⟩
  rcases h9 : r.resolves self.deferredColor ObjectKind.TextureBuffer with _ | _
  · exact ⟨9, by simp [resolveHandles, ExecState.andThen, ExecState.get, ExecState.log, ExecState.throw, getOps, h1, h2, h3, h4, h5, h6, h7, h8, h9]⟩
  rcases h10 : r.resolves self.deferredDepth ObjectKind.TextureBuffer with _ | _
  · exact ⟨10, by simp [resolveHandles, ExecState.andThen, ExecState.get, ExecState.log, ExecState.throw, getOps, h1, h2, h3, h4, h5, h6, h7, h8, h9, h10]⟩
  rcases h11 : r.resolves self.forwardColor ObjectKind.TextureBuffer with _ | _
  · exact ⟨11, by simp [resolveHandles, ExecState.andThen, ExecState.get, ExecState.log, ExecState.throw, getOps, h1, h2, h3, h4, h5, h6, h7, h8, h9, h10, h11]⟩
  rcases h12 : r.resolves self.forwardDepth ObjectKind.TextureBuffer with _ | _
  · exact ⟨12, by simp [resolveHandles, ExecState.andThen, ExecState.get, ExecState.log, ExecState.throw, getOps, h1, h2, h3, h4, h5, h6, h7, h8, h9, h10, h11, h12]⟩
  rcases h13 : r.resolves self.backgroundColor ObjectKind.TextureBuffer with _ | _
  · exact ⟨13, by simp [resolveHandles, ExecState.andThen, ExecState.get, ExecState.log, ExecState.throw, getOps, h1, h2, h3, h4, h5, h6, h7, h8, h9, h10, h11, h12, h13]⟩
  rcases h14 : r.resolves self.commandBuffer ObjectKind.CommandBuffer with _ | _
  · exact ⟨14, by simp [resolveHandles, ExecState.andThen, ExecState.get, ExecState.log, ExecState.throw, getOps, h1, h2, h3, h4, h5, h6, h7, h8, h9, h10, h11, h12, h13, h14]⟩
  simp [allResolve, h1, h2, h3, h4, h5, h6, h7, h8, h9, h10, h11, h12, h13, h14] at h


theorem FrameGraphPassResources.set_set (r : FrameGraphPassResources) (h : FrameGraphResource)
    (a b : RenderObject) : (r.set h a).set h b = r.set h b := by
  simp only [FrameGraphPassResources.set, FrameGraphPassResources.mk.injEq]
  funext k
  by_cases hk : k = h <;> simp [hk]

theorem FrameGraphPassResources.commandBuffer_of_resolves (r : FrameGraphPassResources)
    (h : FrameGraphResource) (hr : r.resolves h ObjectKind.CommandBuffer = true) :
    ∃ cb, r.commandBuffer h = some cb := by
  unfold resolves at hr
  unfold commandBuffer
  cases ho : r.objects h with
  | none => simp [ho] at hr
  | some o =>
    cases o <;> simp [ho, RenderObject.kind] at hr ⊢

theorem uploadQuad_eq (self : CompositePass) (r : FrameGraphPassResources)
    (q1 q2 q3 : List CommandQueue) (tr : List ExecOp) :
    uploadQuad ⟨none, self, r, q1, q2, q3, tr⟩
      = ⟨none, { self with quadAllocated := true }, afterUpload self r, q1, q2, q3,
          tr ++ uploadOps self⟩ := by
  cases hq : self.quadAllocated
  · simp [uploadQuad, afterUpload, uploadOps, ExecState.log, hq, quadBytes]
  · have : ({ self with quadAllocated := true } : CompositePass) = self := by
      cases self; simp_all
    simp [uploadQuad, afterUpload, uploadOps, hq, this]

theorem attach_eq (self : CompositePass) (r : FrameGraphPassResources)
    (q1 q2 q3 : List CommandQueue) (tr : List ExecOp) :
    attach ⟨none, self, r, q1, q2, q3, tr⟩
      = if completeAt (attached self r) self.target = true then
          if completeAt (attached self r) self.blitTarget = true then
            ⟨none, self, attached self r, q1, q2, q3, tr ++ attachOps self⟩
          else
            ⟨some FrameGraphError.AssertionFailed, self, attached self r, q1, q2, q3,
              tr ++ (attachOps self).take 4⟩
        else
          ⟨some FrameGraphError.AssertionFailed, self, attached self r, q1, q2, q3,
            tr ++ (attachOps self).take 3⟩ := by
  simp only [attach, CompositePass.setAttachments, assertComplete, ExecState.log,
    ExecState.throw, completeAt, attached, attachOps, ExecState.andThen]
  cases h1 : ((r.modifyRenderTarget self.target fun t =>
      t.setAttachments [RenderTargetAttachment.texture self.screenColor]
        (RenderTargetAttachment.texture self.screenDepth)).modifyRenderTarget self.blitTarget
      fun t => t.setAttachments [RenderTargetAttachment.texture self.backgroundColor]
        (RenderTargetAttachment.texture self.deferredDepth)).renderTarget self.target with
  | none => simp
  | some t =>
    cases ht : t.isComplete
    · simp [ht]
    · cases h2 : ((r.modifyRenderTarget self.target fun t =>
          t.setAttachments [RenderTargetAttachment.texture self.screenColor]
            (RenderTargetAttachment.texture self.screenDepth)).modifyRenderTarget self.blitTarget
          fun t => t.setAttachments [RenderTargetAttachment.texture self.backgroundColor]
            (RenderTargetAttachment.texture self.deferredDepth)).renderTarget self.blitTarget with
      | none => simp [h2, ht]
      | some t2 =>
        cases ht2 : t2.isComplete <;> simp [h2, ht2, ht]

theorem record_eq (self : CompositePass) (r : FrameGraphPassResources)
    (q1 q2 q3 : List CommandQueue) (tr : List ExecOp) :
    record ⟨none, self, r, q1, q2, q3, tr⟩
      = match r.commandBuffer self.commandBuffer with
        | some ⟨CommandBufferState.Empty, c0⟩ =>
          ⟨none, self,
            r.set self.commandBuffer
              (RenderObject.commandBuffer ⟨CommandBufferState.Sealed, c0 ++ commands self r⟩),
            q1, q2, q3, tr ++ recordOps self r⟩
        | some _ =>
          ⟨some FrameGraphError.BufferAlreadySealed, self, r, q1, q2, q3,
            tr ++ (recordOps self r).take 10⟩
        | none =>
          ⟨some FrameGraphError.UnresolvedHandle, self, r, q1, q2, q3,
            tr ++ (recordOps self r).take 10⟩ := by
  have hlen : (commands self r).length = 9 := rfl
  have htake : (recordOps self r).take 10
      = (commands self r).map ExecOp.construct ++ [ExecOp.bufferBegin self.commandBuffer] := by
    rfl
  rw [htake]
  simp only [record, onCommandBuffer, ExecState.log, ExecState.throw, ExecState.andThen,
    recordOps]
  cases hc : r.commandBuffer self.commandBuffer with
  | none => simp
  | some cb =>
    obtain ⟨st, c0⟩ := cb
    cases st <;>
      simp [CommandBuffer.begin, CommandBuffer.add, CommandBuffer.end_, commandBuffer_set_self,
        FrameGraphPassResources.set_set]

theorem submit_eq (self : CompositePass) (r : FrameGraphPassResources)
    (q : CommandQueue) (qs q2 q3 : List CommandQueue) (tr : List ExecOp) (c : List Command)
    (hc : r.commandBuffer self.commandBuffer = some ⟨CommandBufferState.Sealed, c⟩) :
    submit ⟨none, self, r, q :: qs, q2, q3, tr⟩
      = ⟨none, self,
          r.set self.commandBuffer
            (RenderObject.commandBuffer ⟨CommandBufferState.Submitted, c⟩),
          afterSubmit self q c :: qs, q2, q3,
          tr ++ [ExecOp.submit QueueKind.Render 0 [self.commandBuffer]]⟩ := by
  simp [submit, ExecState.log, ExecState.throw, hc, CommandBuffer.submitted, afterSubmit]

theorem submit_noQueue (self : CompositePass) (r : FrameGraphPassResources)
    (q2 q3 : List CommandQueue) (tr : List ExecOp) :
    submit ⟨none, self, r, [], q2, q3, tr⟩
      = ⟨some FrameGraphError.OutOfRange, self, r, [], q2, q3, tr⟩ := by
  simp [submit, ExecState.throw]

theorem clear_eq (self : CompositePass) (r : FrameGraphPassResources)
    (q1 q2 q3 : List CommandQueue) (tr : List ExecOp) :
    clear ⟨none, self, r, q1, q2, q3, tr⟩
      = ⟨none, self,
          (r.modifyRenderTarget self.blitTarget RenderTarget.clearAttachments).modifyRenderTarget
            self.target RenderTarget.clearAttachments,
          q1, q2, q3,
          tr ++ [ExecOp.clearAttachments self.blitTarget, ExecOp.clearAttachments self.target]⟩ := by
  simp [clear, ExecState.log]


theorem targetSize_setAttachments (r : FrameGraphPassResources) (h k : FrameGraphResource)
    (colors : List RenderTargetAttachment) (depthStencil : RenderTargetAttachment) :
    targetSize (r.modifyRenderTarget h (fun t => t.setAttachments colors depthStencil)) k
      = targetSize r k :=
  targetSize_modifyRenderTarget r h k _ (fun _ => rfl)

theorem commandBuffer_afterAttach (self : CompositePass) (r : FrameGraphPassResources)
    (k : FrameGraphResource) : (afterAttach self r).commandBuffer k = r.commandBuffer k := by
  unfold afterAttach attached afterUpload
  split <;>
    simp only [commandBuffer_modifyRenderTarget, commandBuffer_modifyVertexArrayObject,
      commandBuffer_modifyVertexBuffer]

theorem targetSize_afterAttach (self : CompositePass) (r : FrameGraphPassResources)
    (k : FrameGraphResource) : targetSize (afterAttach self r) k = targetSize r k := by
  unfold afterAttach attached afterUpload
  rw [targetSize_setAttachments, targetSize_setAttachments]
  split
  · rfl
  · rw [targetSize_modifyVertexArrayObject, targetSize_modifyVertexBuffer]

theorem commands_afterAttach (self : CompositePass) (r : FrameGraphPassResources) :
    commands self (afterAttach self r) = commands self r :=
  commands_congr self r (afterAttach self r) (targetSize_afterAttach self r)

theorem recordOps_afterAttach (self : CompositePass) (r : FrameGraphPassResources) :
    recordOps self (afterAttach self r) = recordOps self r := by
  simp only [recordOps, commands_afterAttach]

/-- The five ways an `execute` can go, each with the state it ends in. -/
theorem execute_cases (self : CompositePass) (r : FrameGraphPassResources)
    (q1 q2 q3 : List CommandQueue) :
    (allResolve self r = false ∧
      ∃ n, self.execute r q1 q2 q3
        = ⟨some FrameGraphError.UnresolvedHandle, self, r, q1, q2, q3, (getOps self).take n⟩)
    ∨ (allResolve self r = true ∧ assertsHold self r = false ∧
      ∃ n, self.execute r q1 q2 q3
        = ⟨some FrameGraphError.AssertionFailed, { self with quadAllocated := true },
            afterAttach self r, q1, q2, q3,
            getOps self ++ uploadOps self ++ (attachOps self).take n⟩)
    ∨ (allResolve self r = true ∧ assertsHold self r = true ∧
      ∃ st c0, st ≠ CommandBufferState.Empty ∧
        r.commandBuffer self.commandBuffer = some ⟨st, c0⟩ ∧
        self.execute r q1 q2 q3
          = ⟨some FrameGraphError.BufferAlreadySealed, { self with quadAllocated := true },
              afterAttach self r, q1, q2, q3,
              getOps self ++ uploadOps self ++ attachOps self ++ (recordOps self r).take 10⟩)
    ∨ (allResolve self r = true ∧ assertsHold self r = true ∧
      ∃ c0, r.commandBuffer self.commandBuffer = some ⟨CommandBufferState.Empty, c0⟩ ∧
        q1 = [] ∧
        self.execute r q1 q2 q3
          = ⟨some FrameGraphError.OutOfRange, { self with quadAllocated := true },
              afterRecord self r CommandBufferState.Sealed (c0 ++ commands self r), [], q2, q3,
              getOps self ++ uploadOps self ++ attachOps self ++ recordOps self r⟩)
    ∨ (allResolve self r = true ∧ assertsHold self r = true ∧
      ∃ c0 q qs, r.commandBuffer self.commandBuffer = some ⟨CommandBufferState.Empty, c0⟩ ∧
        q1 = q :: qs ∧
        self.execute r q1 q2 q3
          = ⟨none, { self with quadAllocated := true },
              afterFinish self r (c0 ++ commands self r),
              afterSubmit self q (c0 ++ commands self r) :: qs, q2, q3, script self r⟩) := by
  unfold execute
  cases hA : allResolve self r
  · obtain ⟨n, hn⟩ := resolveHandles_fail self r q1 q2 q3 [] hA
    left
    refine ⟨rfl, n, ?_⟩
    rw [hn]
    simp [ExecState.andThen]
  right
  rw [resolveHandles_ok self r q1 q2 q3 [] hA]
  simp only [ExecState.andThen, uploadQuad_eq, attach_eq, List.nil_append]
  have hatt : attached { self with quadAllocated := true } (afterUpload self r)
      = afterAttach self r := rfl
  rw [hatt]
  have hT : ({ self with quadAllocated := true } : CompositePass).target = self.target := rfl
  have hB : ({ self with quadAllocated := true } : CompositePass).blitTarget
      = self.blitTarget := rfl
  have hAO : attachOps { self with quadAllocated := true } = attachOps self := rfl
  rw [hT, hB, hAO]
  cases h1 : completeAt (afterAttach self r) self.target
  · left
    refine ⟨trivial, by simp [assertsHold, h1], 3, ?_⟩
    simp
  cases h2 : completeAt (afterAttach self r) self.blitTarget
  · left
    refine ⟨trivial, by simp [assertsHold, h1, h2], 4, ?_⟩
    simp
  right
  have hH : assertsHold self r = true := by simp [assertsHold, h1, h2]
  simp only [if_true, record_eq]
  have hK : ({ self with quadAllocated := true } : CompositePass).commandBuffer
      = self.commandBuffer := rfl
  have hRO : recordOps { self with quadAllocated := true } (afterAttach self r)
      = recordOps self r := recordOps_afterAttach self r
  have hCM : commands { self with quadAllocated := true } (afterAttach self r)
      = commands self r := commands_afterAttach self r
  rw [hK, hRO, hCM, commandBuffer_afterAttach]
  obtain ⟨cb, hcb⟩ := commandBuffer_of_resolves r self.commandBuffer
    (by simp only [allResolve, Bool.and_eq_true] at hA; exact hA.2)
  obtain ⟨st, c0⟩ := cb
  rw [hcb]
  cases st
  case Empty =>
    right
    cases q1 with
    | nil =>
      left
      refine ⟨trivial, hH, c0, rfl, rfl, ?_⟩
      simp [submit_noQueue, afterRecord]
    | cons q qs =>
      right
      refine ⟨trivial, hH, c0, q, qs, rfl, rfl, ?_⟩
      simp only []
      rw [submit_eq _ _ _ _ _ _ _ (c0 ++ commands self r)
        (by rw [hK]; exact commandBuffer_set_self _ _ _)]
      simp only [clear_eq, hK, FrameGraphPassResources.set_set]
      simp [afterFinish, afterRecord, script, finishOps, afterSubmit]
  all_goals
    left
    refine ⟨trivial, hH, _, c0, ?_, rfl, ?_⟩
    · simp
    · simp


/-! ## Consequences for one `execute` -/

theorem script_eq_body (self : CompositePass) (r : FrameGraphPassResources) :
    script self r = body self r ++ finishOps self := rfl

/-- An `execute` that throws stops inside the body of the script. -/
theorem execute_failure_trace (self : CompositePass) (r : FrameGraphPassResources)
    (q1 q2 q3 : List CommandQueue) (h : (self.execute r q1 q2 q3).error ≠ none) :
    (self.execute r q1 q2 q3).trace <+: body self r := by
  rcases execute_cases self r q1 q2 q3 with ⟨-, n, hn⟩ | ⟨-, -, n, hn⟩ | ⟨-, -, st, c0, -, -, hn⟩ |
      ⟨-, -, c0, -, -, hn⟩ | ⟨-, -, c0, q, qs, -, -, hn⟩
  · rw [hn]
    simp only [body, List.append_assoc]
    exact (List.take_prefix _ _).trans (List.prefix_append _ _)
  · rw [hn]
    simp only [body, List.append_assoc]
    refine (List.prefix_append_right_inj _).2 ((List.prefix_append_right_inj _).2 ?_)
    exact (List.take_prefix _ _).trans (List.prefix_append _ _)
  · rw [hn]
    simp only [body, List.append_assoc]
    refine (List.prefix_append_right_inj _).2 ((List.prefix_append_right_inj _).2
      ((List.prefix_append_right_inj _).2 ?_))
    exact List.take_prefix _ _
  · rw [hn]
    exact List.prefix_refl _
  · rw [hn] at h
    exact absurd rfl h

/-- Every trace is a prefix of the script. -/
theorem execute_trace_within_script (self : CompositePass) (r : FrameGraphPassResources)
    (q1 q2 q3 : List CommandQueue) :
    (self.execute r q1 q2 q3).trace <+: script self r := by
  by_cases h : (self.execute r q1 q2 q3).error = none
  · rcases execute_cases self r q1 q2 q3 with ⟨-, n, hn⟩ | ⟨-, -, n, hn⟩ |
        ⟨-, -, st, c0, -, -, hn⟩ | ⟨-, -, c0, -, -, hn⟩ | ⟨-, -, c0, q, qs, -, -, hn⟩
    · rw [hn] at h; cases h
    · rw [hn] at h; cases h
    · rw [hn] at h; cases h
    · rw [hn] at h; cases h
    · rw [hn]
  · rw [script_eq_body]
    exact (execute_failure_trace self r q1 q2 q3 h).trans (List.prefix_append _ _)

/-- An `execute` that returns went through the whole script. -/
theorem execute_success (self : CompositePass) (r : FrameGraphPassResources)
    (q1 q2 q3 : List CommandQueue) (h : (self.execute r q1 q2 q3).error = none) :
    allResolve self r = true ∧ assertsHold self r = true ∧
    ∃ c0 q qs, r.commandBuffer self.commandBuffer = some ⟨CommandBufferState.Empty, c0⟩ ∧
      q1 = q :: qs ∧
      self.execute r q1 q2 q3
        = ⟨none, { self with quadAllocated := true },
            afterFinish self r (c0 ++ commands self r),
            afterSubmit self q (c0 ++ commands self r) :: qs, q2, q3, script self r⟩ := by
  rcases execute_cases self r q1 q2 q3 with ⟨-, n, hn⟩ | ⟨-, -, n, hn⟩ |
      ⟨-, -, st, c0, -, -, hn⟩ | ⟨-, -, c0, -, -, hn⟩ | ⟨hA, hH, c0, q, qs, hc, hq, hn⟩
  · rw [hn] at h; cases h
  · rw [hn] at h; cases h
  · rw [hn] at h; cases h
  · rw [hn] at h; cases h
  · exact ⟨hA, hH, c0, q, qs, hc, hq, hn⟩

theorem body_not_submit (self : CompositePass) (r : FrameGraphPassResources)
    (k : QueueKind) (i : Nat) (bs : List FrameGraphResource) :
    ExecOp.submit k i bs ∉ body self r := by
  cases hq : self.quadAllocated <;>
    simp [body, getOps, uploadOps, attachOps, recordOps, commands, hq]

theorem commandBuffer_afterFinish (self : CompositePass) (r : FrameGraphPassResources)
    (c : List Command) :
    (afterFinish self r c).commandBuffer self.commandBuffer
      = some ⟨CommandBufferState.Submitted, c⟩ := by
  unfold afterFinish afterRecord
  rw [commandBuffer_modifyRenderTarget, commandBuffer_modifyRenderTarget, commandBuffer_set_self]

/-- C3: in every `execute` that reaches submission, the operations on the
command buffer are, in this order and once each, `begin`, `add` of all the
recorded commands, `end` and one `submit` of that buffer to `renderQueues[0]`;
the compute and transfer queues are left as they were.  Starting from an
`Empty` buffer, `execute` raises neither `UnsealedBuffer` nor
`BufferAlreadySealed`, and when it reaches submission the buffer has gone
through `Recording`, `Sealed` and `Submitted`. -/
theorem execute_command_buffer_protocol (self : CompositePass) (r : FrameGraphPassResources)
    (q1 q2 q3 : List CommandQueue) :
    ((∃ k i bs, ExecOp.submit k i bs ∈ (self.execute r q1 q2 q3).trace) →
      (self.execute r q1 q2 q3).trace.filter ExecOp.isBufferOp
        = [ ExecOp.bufferBegin self.commandBuffer,
            ExecOp.bufferAdd self.commandBuffer (commands self r),
            ExecOp.bufferEnd self.commandBuffer,
            ExecOp.submit QueueKind.Render 0 [self.commandBuffer] ] ∧
      (self.execute r q1 q2 q3).computeQueues = q2 ∧
      (self.execute r q1 q2 q3).transferQueues = q3 ∧
      ∃ q qs c0, q1 = q :: qs ∧
        r.commandBuffer self.commandBuffer = some ⟨CommandBufferState.Empty, c0⟩ ∧
        (self.execute r q1 q2 q3).renderQueues
          = afterSubmit self q (c0 ++ commands self r) :: qs ∧
        (self.execute r q1 q2 q3).resources.commandBuffer self.commandBuffer
          = some ⟨CommandBufferState.Submitted, c0 ++ commands self r⟩ ∧
        CommandBuffer.statesAlong ⟨CommandBufferState.Empty, c0⟩
            ((self.execute r q1 q2 q3).trace.filter ExecOp.isBufferOp)
          = [ CommandBufferState.Recording, CommandBufferState.Recording,
              CommandBufferState.Sealed, CommandBufferState.Submitted ]) ∧
    ((∃ c0, r.commandBuffer self.commandBuffer = some ⟨CommandBufferState.Empty, c0⟩) →
      (self.execute r q1 q2 q3).error ≠ some FrameGraphError.UnsealedBuffer ∧
      (self.execute r q1 q2 q3).error ≠ some FrameGraphError.BufferAlreadySealed) := by
  constructor
  · rintro ⟨k, i, bs, hsub⟩
    have hok : (self.execute r q1 q2 q3).error = none := by
      by_contra hne
      exact body_not_submit self r k i bs
        ((execute_failure_trace self r q1 q2 q3 hne).subset hsub)
    obtain ⟨-, -, c0, q, qs, hc, hq, hn⟩ := execute_success self r q1 q2 q3 hok
    have hfilter : (script self r).filter ExecOp.isBufferOp
        = [ ExecOp.bufferBegin self.commandBuffer,
            ExecOp.bufferAdd self.commandBuffer (commands self r),
            ExecOp.bufferEnd self.commandBuffer,
            ExecOp.submit QueueKind.Render 0 [self.commandBuffer] ] := by
      cases hqa : self.quadAllocated <;>
        simp [script, getOps, uploadOps, attachOps, recordOps, finishOps, commands, hqa,
          ExecOp.isBufferOp, List.filter_cons]
    rw [hn]
    simp only [hfilter]
    refine ⟨trivial, trivial, trivial, q, qs, c0, hq, hc, rfl,
      commandBuffer_afterFinish self r _, ?_⟩
    simp [CommandBuffer.statesAlong, CommandBuffer.step, CommandBuffer.begin, CommandBuffer.add,
      CommandBuffer.end_, CommandBuffer.submitted]
  · rintro ⟨c0, hc0⟩
    rcases execute_cases self r q1 q2 q3 with ⟨-, n, hn⟩ | ⟨-, -, n, hn⟩ |
        ⟨-, -, st, c1, hst, hc1, hn⟩ | ⟨-, -, c1, -, -, hn⟩ | ⟨-, -, c1, q, qs, -, -, hn⟩
    · rw [hn]; simp
    · rw [hn]; simp
    · rw [hc0] at hc1
      simp only [Option.some.injEq, CommandBuffer.mk.injEq] at hc1
      exact absurd hc1.1.symm hst
    · rw [hn]; simp
    · rw [hn]; simp

/-- The only `add` of the script carries the commands of lines 159-194. -/
theorem bufferAdd_of_mem_trace (self : CompositePass) (r : FrameGraphPassResources)
    (q1 q2 q3 : List CommandQueue) (cb : FrameGraphResource) (cmds : List Command)
    (hadd : ExecOp.bufferAdd cb cmds ∈ (self.execute r q1 q2 q3).trace) :
    cb = self.commandBuffer ∧ cmds = commands self r := by
  have hmem := (execute_trace_within_script self r q1 q2 q3).subset hadd
  cases hqa : self.quadAllocated <;>
    simp [script, getOps, uploadOps, attachOps, recordOps, finishOps, hqa] at hmem <;>
    exact hmem

/-- C7: the command list `execute` adds to its command buffer is always the
same nine commands, in program order: the blit of `blitTarget` into `target`
(NEAREST, full sizes of both), the pass begin on `target`, the pipeline bind,
the vertex array bind, the bind of deferred colour and depth as fragment READ
resources, the draw over `[0, mesh.vertices.size())`, the bind of forward colour
and depth as fragment READ resources, the same draw, and the pass end. -/
theorem execute_records_nine_commands (self : CompositePass) (r : FrameGraphPassResources)
    (q1 q2 q3 : List CommandQueue) (cb : FrameGraphResource) (cmds : List Command)
    (hadd : ExecOp.bufferAdd cb cmds ∈ (self.execute r q1 q2 q3).trace) :
    cb = self.commandBuffer ∧
    cmds =
      [ Command.blitColor self.target self.blitTarget ⟨0, 0⟩ ⟨0, 0⟩
          (targetSize r self.blitTarget) (targetSize r self.target) TextureFiltering.NEAREST 0 0,
        Command.beginPass self.pass self.target,
        Command.bindPipeline self.blendPipeline,
        Command.bindVertexArrayObject self.vertexArrayObject,
        Command.bindShaderResources
          [ (self.deferredColor, [(ShaderStage.FRAGMENT, ShaderAccess.READ)]),
            (self.deferredDepth, [(ShaderStage.FRAGMENT, ShaderAccess.READ)]) ],
        Command.drawArray self.pass 0 self.mesh.vertices.length,
        Command.bindShaderResources
          [ (self.forwardColor, [(ShaderStage.FRAGMENT, ShaderAccess.READ)]),
            (self.forwardDepth, [(ShaderStage.FRAGMENT, ShaderAccess.READ)]) ],
        Command.drawArray self.pass 0 self.mesh.vertices.length,
        Command.endPass self.pass ] :=
  bufferAdd_of_mem_trace self r q1 q2 q3 cb cmds hadd


/-! ## Completeness of the render targets -/

theorem renderTarget_afterUpload (self : CompositePass) (r : FrameGraphPassResources)
    (k : FrameGraphResource) : (afterUpload self r).renderTarget k = r.renderTarget k := by
  unfold afterUpload
  split
  · rfl
  · rw [renderTarget_modifyVertexArrayObject, renderTarget_modifyVertexBuffer]

/-- After both `setAttachments`, a target declared with one colour attachment
and a depth-stencil attachment is complete. -/
theorem completeAt_afterAttach (self : CompositePass) (r : FrameGraphPassResources)
    (h : FrameGraphResource) (hh : h = self.target ∨ h = self.blitTarget)
    (rt : RenderTarget) (hrt : r.renderTarget h = some rt)
    (hd1 : rt.desc.numberOfColorAttachments = 1)
    (hd2 : rt.desc.hasDepthStencilAttachment = true) :
    completeAt (afterAttach self r) h = true := by
  unfold completeAt afterAttach attached
  rw [renderTarget_modifyRenderTarget, renderTarget_modifyRenderTarget,
    renderTarget_modifyRenderTarget, renderTarget_afterUpload, renderTarget_afterUpload]
  by_cases hb : h = self.blitTarget
  · subst hb
    by_cases ht : self.blitTarget = self.target
    · rw [ht] at hrt ⊢
      simp [hrt, RenderTarget.isComplete, RenderTarget.setAttachments, hd1, hd2]
    · simp [ht, hrt, RenderTarget.isComplete, RenderTarget.setAttachments, hd1, hd2]
  · have ht : h = self.target := by
      rcases hh with h1 | h1
      · exact h1
      · exact absurd h1 hb
    subst ht
    simp [hb, hrt, RenderTarget.isComplete, RenderTarget.setAttachments, hd1, hd2]

/-- Operations of a list that all come before the first occurrence of an
operation the list does not contain. -/
theorem mem_before_of_append {α : Type} (A : List α) :
    ∀ (X pre tail : List α) (x : α), A ++ X = pre ++ x :: tail → x ∉ A →
      ∀ a ∈ A, a ∈ pre := by
  induction A with
  | nil => intro _ _ _ _ _ _ a ha; cases ha
  | cons y ys ih =>
    intro X pre tail x heq hx a ha
    cases pre with
    | nil =>
      simp only [List.cons_append, List.nil_append, List.cons.injEq] at heq
      exact absurd (heq.1 ▸ List.mem_cons_self _ _) hx
    | cons p ps =>
      simp only [List.cons_append, List.cons.injEq] at heq
      obtain ⟨rfl, heq⟩ := heq
      rcases List.mem_cons.1 ha with rfl | ha
      · exact List.mem_cons_self _ _
      · exact List.mem_cons_of_mem _
          (ih X ps tail x heq (fun h => hx (List.mem_cons_of_mem _ h)) a ha)

theorem renderTarget_of_describes (r : FrameGraphPassResources) (h : FrameGraphResource)
    (d : RenderTargetDesc) (o : RenderObject) (ho : r.objects h = some o)
    (hd : (Allocation.renderTarget d).describes o = true) :
    ∃ rt, r.renderTarget h = some rt ∧ rt.desc = d := by
  cases o <;> simp [Allocation.describes] at hd
  rename_i rt
  exact ⟨rt, by simp [FrameGraphPassResources.renderTarget, ho], hd⟩

/-- C4: render-target completeness is established and checked before any
command is constructed.  `setup` declares `target` and `blitTarget` with one
colour attachment and a depth-stencil attachment; in the following `execute`,
on live objects created from the registered descriptors, the assertion never
fails; and whenever a command is constructed, both targets have before
received one colour texture and one depth texture through `setAttachments` and
`isComplete` has been asserted for both. -/
theorem execute_targets_complete (self : CompositePass) (builder : FrameGraphBuilder)
    (r : FrameGraphPassResources) (q1 q2 q3 : List CommandQueue)
    (hmat : r.Materializes (self.setup builder).builder) :
    (∀ h ∈ [(self.setup builder).self.target, (self.setup builder).self.blitTarget],
      ∃ d, (self.setup builder).builder.allocationOf h = some (Allocation.renderTarget d) ∧
        d.numberOfColorAttachments = 1 ∧ d.hasDepthStencilAttachment = true) ∧
    ((self.setup builder).self.execute r q1 q2 q3).error
      ≠ some FrameGraphError.AssertionFailed ∧
    (∀ pre post c,
      ((self.setup builder).self.execute r q1 q2 q3).trace
          = pre ++ ExecOp.construct c :: post →
        ExecOp.setAttachments (self.setup builder).self.target
            [RenderTargetAttachment.texture (self.setup builder).self.screenColor]
            (RenderTargetAttachment.texture (self.setup builder).self.screenDepth) ∈ pre ∧
        ExecOp.setAttachments (self.setup builder).self.blitTarget
            [RenderTargetAttachment.texture (self.setup builder).self.backgroundColor]
            (RenderTargetAttachment.texture (self.setup builder).self.deferredDepth) ∈ pre ∧
        ExecOp.assertComplete (self.setup builder).self.target ∈ pre ∧
        ExecOp.assertComplete (self.setup builder).self.blitTarget ∈ pre) := by
  obtain ⟨-, -, -, -, -, -, -, hT, hB, haT, haB, -⟩ := setup_account self builder
  have hdecl : ∀ h ∈ [(self.setup builder).self.target, (self.setup builder).self.blitTarget],
      (self.setup builder).builder.allocationOf h
        = some (Allocation.renderTarget (CompositePass.rdesc builder)) := by
    intro h hh
    simp only [List.mem_cons, List.mem_singleton, List.not_mem_nil, or_false] at hh
    rcases hh with rfl | rfl
    · rw [hT]; exact haT
    · rw [hB]; exact haB
  refine ⟨fun h hh => ⟨_, hdecl h hh, rfl, rfl⟩, ?_, ?_⟩
  · have hc : ∀ h ∈ [(self.setup builder).self.target, (self.setup builder).self.blitTarget],
        completeAt (afterAttach (self.setup builder).self r) h = true := by
      intro h hh
      obtain ⟨o, ho, hd⟩ := hmat h _ (hdecl h hh)
      obtain ⟨rt, hrt, hdesc⟩ := renderTarget_of_describes r h _ o ho hd
      refine completeAt_afterAttach _ r h ?_ rt hrt (by rw [hdesc]; rfl) (by rw [hdesc]; rfl)
      simpa using hh
    have hH : assertsHold (self.setup builder).self r = true := by
      simp only [assertsHold, Bool.and_eq_true]
      exact ⟨hc _ (by simp), hc _ (by simp)⟩
    rcases execute_cases (self.setup builder).self r q1 q2 q3 with ⟨-, n, hn⟩ | ⟨-, hF, -⟩ |
        ⟨-, -, st, c0, -, -, hn⟩ | ⟨-, -, c0, -, -, hn⟩ | ⟨-, -, c0, q, qs, -, -, hn⟩
    · rw [hn]; simp
    · rw [hH] at hF; cases hF
    · rw [hn]; simp
    · rw [hn]; simp
    · rw [hn]; simp
  · intro pre post c htr
    obtain ⟨t, ht⟩ := execute_trace_within_script (self.setup builder).self r q1 q2 q3
    rw [htr] at ht
    have hsplit : (getOps (self.setup builder).self ++ uploadOps (self.setup builder).self
          ++ attachOps (self.setup builder).self)
        ++ (recordOps (self.setup builder).self r ++ finishOps (self.setup builder).self)
        = pre ++ ExecOp.construct c :: (post ++ t) := by
      have h := ht.symm
      simpa [script, List.append_assoc] using h
    have hnot : ExecOp.construct c ∉ getOps (self.setup builder).self
        ++ uploadOps (self.setup builder).self ++ attachOps (self.setup builder).self := by
      cases hq : (self.setup builder).self.quadAllocated <;>
        simp [getOps, uploadOps, attachOps, hq]
    have hall := mem_before_of_append _ _ _ _ _ hsplit hnot
    refine ⟨hall _ ?_, hall _ ?_, hall _ ?_, hall _ ?_⟩ <;> simp [attachOps]


/-! ## Declared intent and actual use -/

theorem setupEdgesAdded_eq (self : CompositePass) (b : FrameGraphBuilder) :
    self.setupEdgesAdded b
      = (callScript self (self.setup b).self b (self.setup b).error.isNone).filterMap
          (BuilderCall.edge b.currentPass) := by
  unfold setupEdgesAdded
  rw [(setup_account self b).2.2.2.1]
  simp

/-- After a `setup` that returned, the handles it holds carry these edges. -/
theorem setup_declares (self : CompositePass) (b : FrameGraphBuilder)
    (hok : (self.setup b).error = none) :
    (∀ h ∈ [ (self.setup b).self.target, (self.setup b).self.blitTarget,
             (self.setup b).self.blendPipeline, (self.setup b).self.pass,
             (self.setup b).self.vertexBuffer, (self.setup b).self.vertexArrayObject,
             (self.setup b).self.deferredColor, (self.setup b).self.deferredDepth,
             (self.setup b).self.forwardColor, (self.setup b).self.forwardDepth,
             (self.setup b).self.backgroundColor ],
      (⟨b.currentPass, h, EdgeMode.Read⟩ : DependencyEdge) ∈ self.setupEdgesAdded b) ∧
    (∀ h ∈ [ (self.setup b).self.screenColor, (self.setup b).self.screenDepth,
             (self.setup b).self.commandBuffer ],
      (⟨b.currentPass, h, EdgeMode.Write⟩ : DependencyEdge) ∈ self.setupEdgesAdded b) := by
  rw [setupEdgesAdded_eq]
  have hc : (self.setup b).error.isNone = true := by simp [hok]
  rw [hc]
  constructor
  · intro h hh
    refine List.mem_filterMap.2 ⟨BuilderCall.read h, ?_, rfl⟩
    simp only [List.mem_cons, List.mem_singleton, List.not_mem_nil, or_false] at hh
    rcases hh with rfl | rfl | rfl | rfl | rfl | rfl | rfl | rfl | rfl | rfl | rfl <;>
      simp [callScript]
  · intro h hh
    refine List.mem_filterMap.2 ⟨BuilderCall.write h, ?_, rfl⟩
    simp only [List.mem_cons, List.mem_singleton, List.not_mem_nil, or_false] at hh
    rcases hh with rfl | rfl | rfl <;> simp [callScript]

/-- C8: declared intent covers actual use.  After a `setup` that returned, every
handle the following `execute` resolves through `resources.get` has a Read or a
Write edge recorded by that `setup`; the textures attached to the render target
that is drawn into are declared with Write; the textures attached to the blit
source and the textures bound as shader resources (all with READ access) are
declared with Read. -/
theorem declared_intent_covers_use (self : CompositePass) (builder : FrameGraphBuilder)
    (r : FrameGraphPassResources) (q1 q2 q3 : List CommandQueue)
    (hok : (self.setup builder).error = none) :
    (∀ h k, ExecOp.get h k ∈ ((self.setup builder).self.execute r q1 q2 q3).trace →
      (⟨builder.currentPass, h, EdgeMode.Read⟩ : DependencyEdge)
          ∈ self.setupEdgesAdded builder ∨
      (⟨builder.currentPass, h, EdgeMode.Write⟩ : DependencyEdge)
          ∈ self.setupEdgesAdded builder) ∧
    (∀ cb cmds,
      ExecOp.bufferAdd cb cmds ∈ ((self.setup builder).self.execute r q1 q2 q3).trace →
      (∀ pass target, Command.beginPass pass target ∈ cmds →
        ∀ colors depthStencil,
          ExecOp.setAttachments target colors depthStencil
              ∈ ((self.setup builder).self.execute r q1 q2 q3).trace →
          ∀ x, RenderTargetAttachment.texture x ∈ depthStencil :: colors →
            (⟨builder.currentPass, x, EdgeMode.Write⟩ : DependencyEdge)
              ∈ self.setupEdgesAdded builder) ∧
      (∀ target source o1 o2 s1 s2 f i1 i2,
        Command.blitColor target source o1 o2 s1 s2 f i1 i2 ∈ cmds →
        ∀ colors depthStencil,
          ExecOp.setAttachments source colors depthStencil
              ∈ ((self.setup builder).self.execute r q1 q2 q3).trace →
          ∀ x, RenderTargetAttachment.texture x ∈ depthStencil :: colors →
            (⟨builder.currentPass, x, EdgeMode.Read⟩ : DependencyEdge)
              ∈ self.setupEdgesAdded builder) ∧
      (∀ res, Command.bindShaderResources res ∈ cmds → ∀ x ∈ res,
        (⟨builder.currentPass, x.1, EdgeMode.Read⟩ : DependencyEdge)
            ∈ self.setupEdgesAdded builder ∧
        ∀ sa ∈ x.2, sa.2 = ShaderAccess.READ)) := by
  obtain ⟨hR, hW⟩ := setup_declares self builder hok
  obtain ⟨-, -, -, -, -, -, -, hT, hB, -⟩ := setup_account self builder
  have hTB : (self.setup builder).self.target ≠ (self.setup builder).self.blitTarget := by
    rw [hT, hB]; simp
  have hpre := execute_trace_within_script (self.setup builder).self r q1 q2 q3
  have hall : ∀ h ∈ [ (self.setup builder).self.target, (self.setup builder).self.blitTarget,
        (self.setup builder).self.blendPipeline, (self.setup builder).self.pass,
        (self.setup builder).self.vertexBuffer, (self.setup builder).self.vertexArrayObject,
        (self.setup builder).self.screenColor, (self.setup builder).self.screenDepth,
        (self.setup builder).self.deferredColor, (self.setup builder).self.deferredDepth,
        (self.setup builder).self.forwardColor, (self.setup builder).self.forwardDepth,
        (self.setup builder).self.backgroundColor, (self.setup builder).self.commandBuffer ],
      (⟨builder.currentPass, h, EdgeMode.Read⟩ : DependencyEdge)
          ∈ self.setupEdgesAdded builder ∨
      (⟨builder.currentPass, h, EdgeMode.Write⟩ : DependencyEdge)
          ∈ self.setupEdgesAdded builder := by
    intro h hh
    simp only [List.mem_cons, List.mem_singleton, List.not_mem_nil, or_false] at hh
    rcases hh with rfl | rfl | rfl | rfl | rfl | rfl | rfl | rfl | rfl | rfl | rfl | rfl | rfl | rfl
    · exact Or.inl (hR _ (by simp))
    · exact Or.inl (hR _ (by simp))
    · exact Or.inl (hR _ (by simp))
    · exact Or.inl (hR _ (by simp))
    · exact Or.inl (hR _ (by simp))
    · exact Or.inl (hR _ (by simp))
    · exact Or.inr (hW _ (by simp))
    · exact Or.inr (hW _ (by simp))
    · exact Or.inl (hR _ (by simp))
    · exact Or.inl (hR _ (by simp))
    · exact Or.inl (hR _ (by simp))
    · exact Or.inl (hR _ (by simp))
    · exact Or.inl (hR _ (by simp))
    · exact Or.inr (hW _ (by simp))
  constructor
  · intro h k hget
    have hmem := hpre.subset hget
    apply hall
    cases hq : (self.setup builder).self.quadAllocated <;>
      simp [script, getOps, uploadOps, attachOps, recordOps, finishOps, commands, hq] at hmem <;>
      rcases hmem with h1 | h1 | h1 | h1 | h1 | h1 | h1 | h1 | h1 | h1 | h1 | h1 | h1 | h1 <;>
      obtain ⟨rfl, -⟩ := h1 <;>
      simp
  · intro cb cmds hadd
    obtain ⟨-, hcmds⟩ := bufferAdd_of_mem_trace _ r q1 q2 q3 cb cmds hadd
    subst hcmds
    simp only [commands]
    refine ⟨?_, ?_, ?_⟩
    · intro pass target hbegin colors depthStencil hset x hx
      simp at hbegin
      obtain ⟨-, rfl⟩ := hbegin
      have hmem := hpre.subset hset
      cases hq : (self.setup builder).self.quadAllocated <;>
        simp [script, getOps, uploadOps, attachOps, recordOps, finishOps, commands, hq,
          hTB] at hmem <;>
        obtain ⟨rfl, rfl⟩ := hmem <;>
        simp at hx <;>
        rcases hx with rfl | rfl <;>
        exact hW _ (by simp)
    · intro target source o1 o2 s1 s2 f i1 i2 hblit colors depthStencil hset x hx
      simp at hblit
      obtain ⟨-, rfl, -⟩ := hblit
      have hmem := hpre.subset hset
      cases hq : (self.setup builder).self.quadAllocated <;>
        simp [script, getOps, uploadOps, attachOps, recordOps, finishOps, commands, hq,
          hTB.symm] at hmem <;>
        obtain ⟨rfl, rfl⟩ := hmem <;>
        simp at hx <;>
        rcases hx with rfl | rfl <;>
        exact hR _ (by simp)
    · intro res hres x hx
      simp at hres
      rcases hres with rfl | rfl <;>
        simp at hx <;>
        rcases hx with rfl | rfl <;>
        exact ⟨hR _ (by simp), by simp⟩


/-! ## Consecutive executes -/

theorem renderTarget_isSome_of_resolves (r : FrameGraphPassResources) (h : FrameGraphResource)
    (hr : r.resolves h ObjectKind.RenderTarget = true) : ∃ rt, r.renderTarget h = some rt := by
  unfold resolves at hr
  unfold renderTarget
  cases ho : r.objects h with
  | none => simp [ho] at hr
  | some o => cases o <;> simp [ho, RenderObject.kind] at hr ⊢

theorem ne_of_resolves (r : FrameGraphPassResources) (h1 h2 : FrameGraphResource)
    (k1 k2 : ObjectKind) (hk : k1 ≠ k2) (hr1 : r.resolves h1 k1 = true)
    (hr2 : r.resolves h2 k2 = true) : h1 ≠ h2 := by
  intro heq
  subst heq
  unfold resolves at hr1 hr2
  cases ho : r.objects h1 with
  | none => simp [ho] at hr1
  | some o =>
    simp only [ho, decide_eq_true_eq] at hr1 hr2
    exact hk (hr1.symm.trans hr2)

/-- At the end of an `execute` that returned, both targets are there and have
no attachment left. -/
theorem cleared_afterFinish (self : CompositePass) (r : FrameGraphPassResources)
    (c : List Command) (hA : allResolve self r = true) :
    ∀ h ∈ [self.target, self.blitTarget],
      ∃ rt, (afterFinish self r c).renderTarget h = some rt ∧
        rt.colorAttachments = [] ∧ rt.depthStencilAttachment = none := by
  simp only [allResolve, Bool.and_eq_true] at hA
  obtain ⟨⟨⟨⟨⟨⟨⟨⟨⟨⟨⟨⟨⟨h1, h2⟩, -⟩, -⟩, -⟩, -⟩, -⟩, -⟩, -⟩, -⟩, -⟩, -⟩, -⟩, h14⟩ := hA
  obtain ⟨t1, ht1⟩ := renderTarget_isSome_of_resolves r _ h1
  obtain ⟨t2, ht2⟩ := renderTarget_isSome_of_resolves r _ h2
  have hn1 : self.target ≠ self.commandBuffer := ne_of_resolves r _ _ _ _ (by decide) h1 h14
  have hn2 : self.blitTarget ≠ self.commandBuffer := ne_of_resolves r _ _ _ _ (by decide) h2 h14
  intro h hh
  simp only [List.mem_cons, List.mem_singleton, List.not_mem_nil, or_false] at hh
  simp only [afterFinish, afterRecord, afterAttach, attached, renderTarget_modifyRenderTarget,
    renderTarget_set_commandBuffer, renderTarget_afterUpload]
  by_cases htb : self.blitTarget = self.target
  · rw [htb] at ht2 hn2
    rcases hh with rfl | rfl <;>
      simp [htb, hn1, ht1, RenderTarget.clearAttachments]
  · have htb2 : self.target ≠ self.blitTarget := fun h => htb h.symm
    rcases hh with rfl | rfl <;>
      simp [hn1, hn2, ht1, ht2, htb, htb2, RenderTarget.clearAttachments]

theorem script_counts (self : CompositePass) (r : FrameGraphPassResources) :
    (script self r).countP ExecOp.isUpload = (if self.quadAllocated = false then 1 else 0) ∧
    (script self r).countP ExecOp.isSetBuffers
      = (if self.quadAllocated = false then 1 else 0) ∧
    (self.quadAllocated = false →
      ExecOp.upload self.vertexBuffer 0 self.quadBytes ∈ script self r ∧
      ExecOp.setBuffers self.vertexArrayObject self.vertexBuffer ∈ script self r) ∧
    [ExecOp.clearAttachments self.blitTarget, ExecOp.clearAttachments self.target]
      <:+ script self r := by
  refine ⟨?_, ?_, ?_, ?_⟩
  · cases hq : self.quadAllocated <;>
      simp [script, getOps, uploadOps, attachOps, recordOps, finishOps, commands, hq,
        List.countP_cons, ExecOp.isUpload]
  · cases hq : self.quadAllocated <;>
      simp [script, getOps, uploadOps, attachOps, recordOps, finishOps, commands, hq,
        List.countP_cons, ExecOp.isSetBuffers]
  · intro hq
    simp [script, getOps, uploadOps, attachOps, recordOps, finishOps, hq]
  · refine ⟨getOps self ++ uploadOps self ++ attachOps self ++ recordOps self r
      ++ [ExecOp.submit QueueKind.Render 0 [self.commandBuffer]], ?_⟩
    simp [script, finishOps]

/-- Each of a sequence of executes that all return: what it uploads, and how it
leaves the pass and the targets. -/
theorem executeFrames_account (envs : List FrameEnv) :
    ∀ (self : CompositePass), (∀ s ∈ self.executeFrames envs, s.error = none) →
      ∀ i s, (self.executeFrames envs)[i]? = some s →
        s.trace.countP ExecOp.isUpload
          = (if i = 0 ∧ self.quadAllocated = false then 1 else 0) ∧
        s.trace.countP ExecOp.isSetBuffers
          = (if i = 0 ∧ self.quadAllocated = false then 1 else 0) ∧
        (i = 0 → self.quadAllocated = false →
          ExecOp.upload self.vertexBuffer 0 self.quadBytes ∈ s.trace ∧
          ExecOp.setBuffers self.vertexArrayObject self.vertexBuffer ∈ s.trace) ∧
        s.self.quadAllocated = true ∧
        [ExecOp.clearAttachments self.blitTarget, ExecOp.clearAttachments self.target]
          <:+ s.trace ∧
        ∀ h ∈ [self.target, self.blitTarget],
          ∃ rt, s.resources.renderTarget h = some rt ∧
            rt.colorAttachments = [] ∧ rt.depthStencilAttachment = none := by
  induction envs with
  | nil => intro self _ i s hs; simp [executeFrames] at hs
  | cons e es ih =>
    intro self hok i s hs
    simp only [executeFrames] at hok hs
    have hok0 := hok _ (List.mem_cons_self _ _)
    obtain ⟨hA, -, c0, q, qs, -, -, hn⟩ :=
      execute_success self e.resources e.renderQueues e.computeQueues e.transferQueues hok0
    obtain ⟨hc1, hc2, hc3, hc4⟩ := script_counts self e.resources
    cases i with
    | zero =>
      simp only [List.getElem?_cons_zero, Option.some.injEq] at hs
      subst hs
      rw [hn]
      refine ⟨by simpa using hc1, by simpa using hc2, fun _ hq => hc3 hq, rfl, hc4,
        cleared_afterFinish self e.resources _ hA⟩
    | succ j =>
      simp only [List.getElem?_cons_succ] at hs
      rw [hn] at hs hok
      obtain ⟨g1, g2, -, g4, g5, g6⟩ :=
        ih { self with quadAllocated := true }
          (fun s hs => hok s (List.mem_cons_of_mem _ hs)) j s hs
      refine ⟨by simpa using g1, by simpa using g2, fun h => (by cases h), g4, g5, g6⟩

/-- C9 (amended): across any sequence of `execute` calls on the same pass
object that all return normally, starting with a pass whose quad has not been
uploaded, the quad vertex data is uploaded to the vertex buffer (at offset 0)
and bound to the vertex array object exactly once, during the first execute;
every later execute performs neither call; `quadAllocated` is true after every
execute; every execute ends with `clearAttachments` on `blitTarget` and then
on `target`, and leaves both targets without any attachment. -/
theorem executes_upload_once_and_clear (self : CompositePass) (envs : List FrameEnv)
    (hq : self.quadAllocated = false)
    (hok : ∀ s ∈ self.executeFrames envs, s.error = none) :
    ∀ i s, (self.executeFrames envs)[i]? = some s →
      s.trace.countP ExecOp.isUpload = (if i = 0 then 1 else 0) ∧
      s.trace.countP ExecOp.isSetBuffers = (if i = 0 then 1 else 0) ∧
      (i = 0 →
        ExecOp.upload self.vertexBuffer 0 self.quadBytes ∈ s.trace ∧
        ExecOp.setBuffers self.vertexArrayObject self.vertexBuffer ∈ s.trace) ∧
      s.self.quadAllocated = true ∧
      [ExecOp.clearAttachments self.blitTarget, ExecOp.clearAttachments self.target]
        <:+ s.trace ∧
      ∀ h ∈ [self.target, self.blitTarget],
        ∃ rt, s.resources.renderTarget h = some rt ∧
          rt.colorAttachments = [] ∧ rt.depthStencilAttachment = none := by
  intro i s hs
  obtain ⟨g1, g2, g3, g4, g5, g6⟩ := executeFrames_account envs self hok i s hs
  refine ⟨by simpa [hq] using g1, by simpa [hq] using g2, fun h => g3 h hq, g4, g5, g6⟩


/-! ## The physics driver loader -/

/-- C10: `PhysicsDriver::load` selects the backend by a fixed mapping.  For
`BOX2D` it requests exactly the driver named "box2d", for `BULLET3` exactly
the driver named "bullet3", and returns what `Driver::load` gave, downcast to
`PhysicsDriver` (null when the loaded driver is not one); for every other value
it throws the runtime error "Invalid backend" without requesting any driver.
It throws "Invalid backend" if and only if the value is neither `BOX2D` nor
`BULLET3`. -/
theorem physicsDriver_load_mapping {ε : Type}
    (driverLoad : String → Except ε (Option Driver)) (backend : Int) :
    (backend = BOX2D →
      (PhysicsDriver.load driverLoad backend).requested = ["box2d"] ∧
      (∀ d, driverLoad "box2d" = Except.ok d →
        (PhysicsDriver.load driverLoad backend).outcome = Except.ok (Driver.downcast d)) ∧
      (∀ e, driverLoad "box2d" = Except.error e →
        (PhysicsDriver.load driverLoad backend).outcome
          = Except.error (LoadException.fromDriverLoad e))) ∧
    (backend = BULLET3 →
      (PhysicsDriver.load driverLoad backend).requested = ["bullet3"] ∧
      (∀ d, driverLoad "bullet3" = Except.ok d →
        (PhysicsDriver.load driverLoad backend).outcome = Except.ok (Driver.downcast d)) ∧
      (∀ e, driverLoad "bullet3" = Except.error e →
        (PhysicsDriver.load driverLoad backend).outcome
          = Except.error (LoadException.fromDriverLoad e))) ∧
    (backend ≠ BOX2D → backend ≠ BULLET3 →
      (PhysicsDriver.load driverLoad backend).requested = [] ∧
      (PhysicsDriver.load driverLoad backend).outcome
        = Except.error (LoadException.runtimeError "Invalid backend")) ∧
    ((PhysicsDriver.load driverLoad backend).outcome
        = Except.error (LoadException.runtimeError "Invalid backend")
      ↔ backend ≠ BOX2D ∧ backend ≠ BULLET3) ∧
    (∀ d : Driver, Driver.downcast (some d) = if d.isPhysicsDriver then some d else none) ∧
    Driver.downcast none = none := by
  have hne : BULLET3 ≠ BOX2D := by decide
  refine ⟨?_, ?_, ?_, ?_, ?_, rfl⟩
  · intro hb
    subst hb
    simp only [PhysicsDriver.load, if_true, PhysicsDriver.loadNamed]
    cases h : driverLoad "box2d" <;> simp
  · intro hb
    subst hb
    simp only [PhysicsDriver.load, hne, if_false, if_true, PhysicsDriver.loadNamed]
    cases h : driverLoad "bullet3" <;> simp
  · intro h1 h2
    simp [PhysicsDriver.load, h1, h2]
  · by_cases h1 : backend = BOX2D
    · subst h1
      simp only [PhysicsDriver.load, if_true, PhysicsDriver.loadNamed]
      cases h : driverLoad "box2d" <;> simp
    · by_cases h2 : backend = BULLET3
      · subst h2
        simp only [PhysicsDriver.load, hne, if_false, if_true, PhysicsDriver.loadNamed]
        cases h : driverLoad "bullet3" <;> simp
      · simp [PhysicsDriver.load, h1, h2]
  · intro d
    cases hd : d.isPhysicsDriver <;> simp [Driver.downcast, Option.filter, hd]

/-- C10 at concrete inputs: the two enumerators and the value 2. -/
theorem physicsDriver_load_mapping_witness :
    ((PhysicsDriver.load sampleDriverLoad 0).requested = ["box2d"] ∧
      (PhysicsDriver.load sampleDriverLoad 0).outcome
        = Except.ok (Driver.downcast (some ⟨"box2d", true⟩))) ∧
    ((PhysicsDriver.load sampleDriverLoad 1).requested = ["bullet3"] ∧
      (PhysicsDriver.load sampleDriverLoad 1).outcome
        = Except.ok (Driver.downcast (some ⟨"bullet3", true⟩))) ∧
    ((PhysicsDriver.load sampleDriverLoad 2).requested = [] ∧
      (PhysicsDriver.load sampleDriverLoad 2).outcome
        = Except.error (LoadException.runtimeError "Invalid backend")) :=
  ⟨⟨((physicsDriver_load_mapping sampleDriverLoad 0).1 rfl).1,
      ((physicsDriver_load_mapping sampleDriverLoad 0).1 rfl).2.1 _ rfl⟩,
   ⟨((physicsDriver_load_mapping sampleDriverLoad 1).2.1 rfl).1,
      ((physicsDriver_load_mapping sampleDriverLoad 1).2.1 rfl).2.1 _ rfl⟩,
   (physicsDriver_load_mapping sampleDriverLoad 2).2.2.1 (by decide) (by decide)⟩


/-! ## The statements at concrete inputs -/

/-- C2, the claim as stated fails: in the frame made of the composite pass alone
(pass 0, set up on `sampleBuilder`) the resolver accepts the frame, the pass has
a Write edge (by creation) and a Read edge on its own `target` (handle 7), and
the pass is not placed strictly before itself. -/
theorem resolver_same_pass_counterexample :
    ((CompositePass.fresh sampleMesh).setup sampleBuilder).self.target = ⟨7, true⟩ ∧
    resolve [0] ((CompositePass.fresh sampleMesh).setup sampleBuilder).builder.edges
      = Except.ok [0] ∧
    (⟨0, ⟨7, true⟩, EdgeMode.Write⟩ : DependencyEdge)
      ∈ ((CompositePass.fresh sampleMesh).setup sampleBuilder).builder.edges ∧
    (⟨0, ⟨7, true⟩, EdgeMode.Read⟩ : DependencyEdge)
      ∈ ((CompositePass.fresh sampleMesh).setup sampleBuilder).builder.edges ∧
    ¬ ([0].indexOf 0 < [0].indexOf 0) :=
  ⟨rfl, rfl, by decide, by decide, by decide⟩

/-- C2 (amended) at a concrete frame: the producer of "deferred color" (pass 1)
is registered after the composite pass (pass 0) and is placed before it. -/
theorem resolver_orders_distinct_passes_witness :
    resolve [0, 1] sampleFrameEdges = Except.ok [1, 0] ∧
    (⟨1, ⟨2, true⟩, EdgeMode.Write⟩ : DependencyEdge) ∈ sampleFrameEdges ∧
    (⟨0, ⟨2, true⟩, EdgeMode.Read⟩ : DependencyEdge) ∈ sampleFrameEdges ∧
    [1, 0].indexOf 1 < [1, 0].indexOf 0 ∧
    (⟨0, ⟨9, true⟩, EdgeMode.Write⟩ : DependencyEdge)
      ∈ ((CompositePass.fresh sampleMesh).setup sampleBuilder).builder.edges :=
  ⟨rfl, by decide, by decide,
   (resolver_orders_distinct_passes.1 [0, 1] sampleFrameEdges [1, 0] rfl).2 1 0 ⟨2, true⟩
     (by decide) (by decide) (by decide) (by decide) (by decide),
   ((resolver_orders_distinct_passes.2 (CompositePass.fresh sampleMesh) sampleBuilder).2.2
     rfl).1⟩

/-- C3 at a concrete input: `samplePass` on `sampleResources` with one render
queue reaches submission, starting from an empty buffer. -/
theorem execute_command_buffer_protocol_witness :
    ExecOp.submit QueueKind.Render 0 [⟨13, true⟩]
      ∈ (samplePass.execute sampleResources [⟨[]⟩] [] []).trace ∧
    sampleResources.commandBuffer samplePass.commandBuffer
      = some ⟨CommandBufferState.Empty, []⟩ ∧
    (samplePass.execute sampleResources [⟨[]⟩] [] []).trace.filter ExecOp.isBufferOp
      = [ ExecOp.bufferBegin samplePass.commandBuffer,
          ExecOp.bufferAdd samplePass.commandBuffer (commands samplePass sampleResources),
          ExecOp.bufferEnd samplePass.commandBuffer,
          ExecOp.submit QueueKind.Render 0 [samplePass.commandBuffer] ] ∧
    (samplePass.execute sampleResources [⟨[]⟩] [] []).error
      ≠ some FrameGraphError.BufferAlreadySealed :=
  ⟨by decide, by decide,
   ((execute_command_buffer_protocol samplePass sampleResources [⟨[]⟩] [] []).1
     ⟨QueueKind.Render, 0, [⟨13, true⟩], by decide⟩).1,
   ((execute_command_buffer_protocol samplePass sampleResources [⟨[]⟩] [] []).2
     ⟨[], by decide⟩).2⟩

theorem sampleResources_materializes :
    sampleResources.Materializes
      ((CompositePass.fresh sampleMesh).setup sampleBuilder).builder := by
  intro h a hal
  have hall : ∀ p ∈ ((CompositePass.fresh sampleMesh).setup sampleBuilder).builder.allocations,
      sampleResources.matchesAllocation p = true := by decide
  have hmem : (h, a)
      ∈ ((CompositePass.fresh sampleMesh).setup sampleBuilder).builder.allocations := by
    unfold allocationOf at hal
    cases hf : List.find? (fun e => decide (e.1 = h))
        ((CompositePass.fresh sampleMesh).setup sampleBuilder).builder.allocations.reverse with
    | none => simp [hf] at hal
    | some p =>
      rw [hf] at hal
      simp only [Option.map_some', Option.some.injEq] at hal
      have h1 := List.find?_some hf
      have h2 := List.mem_of_find?_eq_some hf
      simp only [decide_eq_true_eq] at h1
      rw [List.mem_reverse] at h2
      obtain ⟨p1, p2⟩ := p
      simp only at h1 hal
      subst h1 hal
      exact h2
  have hm := hall _ hmem
  unfold matchesAllocation at hm
  cases ho : sampleResources.objects h with
  | none => simp [ho] at hm
  | some o =>
    simp only [ho] at hm
    exact ⟨o, rfl, hm⟩

/-- C4 at a concrete input: `sampleResources` carries the objects registered by
the first setup on `sampleBuilder`, and the execute that follows constructs
its commands after both assertions. -/
theorem execute_targets_complete_witness :
    (samplePass.execute sampleResources [⟨[]⟩] [] []).error
      ≠ some FrameGraphError.AssertionFailed ∧
    ExecOp.assertComplete ⟨8, true⟩
      ∈ (samplePass.execute sampleResources [⟨[]⟩] [] []).trace.take 20 :=
  ⟨(execute_targets_complete (CompositePass.fresh sampleMesh) sampleBuilder sampleResources
      [⟨[]⟩] [] [] sampleResources_materializes).2.1,
   ((execute_targets_complete (CompositePass.fresh sampleMesh) sampleBuilder sampleResources
      [⟨[]⟩] [] [] sampleResources_materializes).2.2
        ((samplePass.execute sampleResources [⟨[]⟩] [] []).trace.take 20)
        ((samplePass.execute sampleResources [⟨[]⟩] [] []).trace.drop 21)
        (Command.blitColor ⟨7, true⟩ ⟨8, true⟩ ⟨0, 0⟩ ⟨0, 0⟩ ⟨640, 480⟩ ⟨640, 480⟩
          TextureFiltering.NEAREST 0 0)
        (by decide)).2.2.2⟩

/-- C6 at concrete inputs.  In the second frame of the pass (first frame on
`sampleBuilder`, second on `sampleBuilderNext`) the read of `target` (handle 14)
follows its creation in the same setup, and the read of the persisted vertex
buffer (handle 9), which no call of the second setup returns, is covered by
its creation and `persist` in the first frame. -/
theorem setup_reads_follow_registration_witness :
    (((CompositePass.fresh sampleMesh).afterFrames [sampleBuilder]).setupCalls
        sampleBuilderNext)[2]? = some (BuilderCall.read ⟨14, true⟩) ∧
    (∃ c ∈ (((CompositePass.fresh sampleMesh).afterFrames [sampleBuilder]).setupCalls
        sampleBuilderNext).take 2, c.returned = some ⟨14, true⟩) ∧
    (((CompositePass.fresh sampleMesh).afterFrames [sampleBuilder]).setupCalls
        sampleBuilderNext)[6]? = some (BuilderCall.read ⟨9, true⟩) ∧
    (∀ c ∈ (((CompositePass.fresh sampleMesh).afterFrames [sampleBuilder]).setupCalls
        sampleBuilderNext).take 6, c.returned ≠ some ⟨9, true⟩) ∧
    ((∃ c ∈ (((CompositePass.fresh sampleMesh).afterFrames [sampleBuilder]).setupCalls
        sampleBuilderNext).take 6, c.returned = some ⟨9, true⟩) ∨
      ((CompositePass.fresh sampleMesh).afterFrames [sampleBuilder]).PersistedEarlier
        ((CompositePass.fresh sampleMesh).setupFrames [sampleBuilder]) ⟨9, true⟩) :=
  ⟨by decide,
   (setup_reads_follow_registration sampleMesh [sampleBuilder] sampleBuilderNext
     ((((CompositePass.fresh sampleMesh).afterFrames [sampleBuilder]).setupCalls
        sampleBuilderNext).take 2)
     ((((CompositePass.fresh sampleMesh).afterFrames [sampleBuilder]).setupCalls
        sampleBuilderNext).drop 3)
     ⟨14, true⟩ (by decide)).2 (by decide),
   by decide, by decide,
   (setup_reads_follow_registration sampleMesh [sampleBuilder] sampleBuilderNext
     ((((CompositePass.fresh sampleMesh).afterFrames [sampleBuilder]).setupCalls
        sampleBuilderNext).take 6)
     ((((CompositePass.fresh sampleMesh).afterFrames [sampleBuilder]).setupCalls
        sampleBuilderNext).drop 7)
     ⟨9, true⟩ (by decide)).1⟩

/-- C7 at a concrete input: the list `samplePass` adds on `sampleResources`. -/
theorem execute_records_nine_commands_witness :
    ExecOp.bufferAdd ⟨13, true⟩ (commands samplePass sampleResources)
      ∈ (samplePass.execute sampleResources [⟨[]⟩] [] []).trace ∧
    commands samplePass sampleResources =
      [ Command.blitColor ⟨7, true⟩ ⟨8, true⟩ ⟨0, 0⟩ ⟨0, 0⟩ ⟨640, 480⟩ ⟨640, 480⟩
          TextureFiltering.NEAREST 0 0,
        Command.beginPass ⟨12, true⟩ ⟨7, true⟩,
        Command.bindPipeline ⟨11, true⟩,
        Command.bindVertexArrayObject ⟨10, true⟩,
        Command.bindShaderResources
          [ (⟨2, true⟩, [(ShaderStage.FRAGMENT, ShaderAccess.READ)]),
            (⟨3, true⟩, [(ShaderStage.FRAGMENT, ShaderAccess.READ)]) ],
        Command.drawArray ⟨12, true⟩ 0 4,
        Command.bindShaderResources
          [ (⟨4, true⟩, [(ShaderStage.FRAGMENT, ShaderAccess.READ)]),
            (⟨5, true⟩, [(ShaderStage.FRAGMENT, ShaderAccess.READ)]) ],
        Command.drawArray ⟨12, true⟩ 0 4,
        Command.endPass ⟨12, true⟩ ] :=
  ⟨by decide,
   (execute_records_nine_commands samplePass sampleResources [⟨[]⟩] [] [] ⟨13, true⟩
     (commands samplePass sampleResources) (by decide)).2⟩

/-- C8 at a concrete input: the first setup on `sampleBuilder` returns, and the
execute that follows resolves `target` (handle 7), on which that setup recorded
a Read edge; it draws into `target`, whose colour texture (handle 0, "screen
color") carries a Write edge, and binds the texture behind "deferred color"
(handle 2), which carries a Read edge. -/
theorem declared_intent_covers_use_witness :
    ((CompositePass.fresh sampleMesh).setup sampleBuilder).error = none ∧
    ExecOp.get ⟨7, true⟩ ObjectKind.RenderTarget
      ∈ (samplePass.execute sampleResources [⟨[]⟩] [] []).trace ∧
    ((⟨0, ⟨7, true⟩, EdgeMode.Read⟩ : DependencyEdge)
        ∈ (CompositePass.fresh sampleMesh).setupEdgesAdded sampleBuilder ∨
      (⟨0, ⟨7, true⟩, EdgeMode.Write⟩ : DependencyEdge)
        ∈ (CompositePass.fresh sampleMesh).setupEdgesAdded sampleBuilder) ∧
    (⟨0, ⟨0, true⟩, EdgeMode.Write⟩ : DependencyEdge)
      ∈ (CompositePass.fresh sampleMesh).setupEdgesAdded sampleBuilder ∧
    (⟨0, ⟨2, true⟩, EdgeMode.Read⟩ : DependencyEdge)
      ∈ (CompositePass.fresh sampleMesh).setupEdgesAdded sampleBuilder :=
  ⟨rfl, by decide,
   (declared_intent_covers_use (CompositePass.fresh sampleMesh) sampleBuilder sampleResources
     [⟨[]⟩] [] [] rfl).1 ⟨7, true⟩ ObjectKind.RenderTarget (by decide),
   ((declared_intent_covers_use (CompositePass.fresh sampleMesh) sampleBuilder sampleResources
     [⟨[]⟩] [] [] rfl).2 ⟨13, true⟩ (commands samplePass sampleResources) (by decide)).1
       ⟨12, true⟩ ⟨7, true⟩ (by decide)
       [RenderTargetAttachment.texture ⟨0, true⟩] (RenderTargetAttachment.texture ⟨1, true⟩)
       (by decide) ⟨0, true⟩ (by decide),
   (((declared_intent_covers_use (CompositePass.fresh sampleMesh) sampleBuilder sampleResources
     [⟨[]⟩] [] [] rfl).2 ⟨13, true⟩ (commands samplePass sampleResources) (by decide)).2.2
       [ (⟨2, true⟩, [(ShaderStage.FRAGMENT, ShaderAccess.READ)]),
         (⟨3, true⟩, [(ShaderStage.FRAGMENT, ShaderAccess.READ)]) ] (by decide)
       (⟨2, true⟩, [(ShaderStage.FRAGMENT, ShaderAccess.READ)]) (by decide)).1⟩

/-- C9, the claim as stated fails on an execute that throws.  With no render
queue, `renderQueues.at(0)` throws after the attachments are set: the execute
does not end with `clearAttachments` and `target` keeps its colour attachment.
With no live object behind the handles, the first `resources.get` throws and
`quadAllocated` is still false after the execute. -/
theorem execute_throwing_counterexample :
    samplePass.quadAllocated = false ∧
    (samplePass.execute sampleResources [] [] []).error = some FrameGraphError.OutOfRange ∧
    ExecOp.clearAttachments samplePass.target
      ∉ (samplePass.execute sampleResources [] [] []).trace ∧
    ExecOp.clearAttachments samplePass.blitTarget
      ∉ (samplePass.execute sampleResources [] [] []).trace ∧
    ((samplePass.execute sampleResources [] [] []).resources.renderTarget
        samplePass.target).map RenderTarget.colorAttachments
      = some [RenderTargetAttachment.texture ⟨0, true⟩] ∧
    (samplePass.execute ⟨fun _ => none⟩ [⟨[]⟩] [] []).error
      = some FrameGraphError.UnresolvedHandle ∧
    (samplePass.execute ⟨fun _ => none⟩ [⟨[]⟩] [] []).self.quadAllocated = false :=
  ⟨rfl, by decide, by decide, by decide, by decide, by decide, by decide⟩

/-- C9 (amended) at a concrete input: two executes of `samplePass`, each on
fresh live objects and one render queue; the second one uploads nothing. -/
theorem executes_upload_once_and_clear_witness :
    samplePass.quadAllocated = false ∧
    (∀ s ∈ samplePass.executeFrames [sampleEnv, sampleEnv], s.error = none) ∧
    ((samplePass.execute sampleResources [⟨[]⟩] [] []).self.execute
        sampleResources [⟨[]⟩] [] []).trace.countP ExecOp.isUpload = 0 ∧
    (samplePass.execute sampleResources [⟨[]⟩] [] []).trace.countP ExecOp.isUpload = 1 :=
  ⟨rfl, by decide,
   (executes_upload_once_and_clear samplePass [sampleEnv, sampleEnv] rfl (by decide) 1
     ((samplePass.execute sampleResources [⟨[]⟩] [] []).self.execute
        sampleResources [⟨[]⟩] [] []) rfl).1,
   (executes_upload_once_and_clear samplePass [sampleEnv, sampleEnv] rfl (by decide) 0
     (samplePass.execute sampleResources [⟨[]⟩] [] []) rfl).1⟩

end xng
